import Mathlib

/-!
Verification development for the Salfon League platform core engines.

This file gives a shallow embedding of the computation core of the
repository — the points rule (`tournamentEngine.js`), the standings
calculator (`standingsEngine.js`), the match result state machine
(`matchEngine.js`) and the playoff bracket engine — and proves the
spec-level properties about them.

Embedding conventions:
* JavaScript numbers that hold goal counts, days and statistics are
  modelled as `Int`; a JS value of unrestricted type fed to `parseInt`
  is modelled by `JSVal` (an integer number, a string, `null` or
  `undefined`).
* `null`/absent fields are `Option`.
* Browser storage is a `Store` record threaded explicitly; an engine
  operation that catches an exception and reports `{success: false}`
  is an `Except String` value, and the store is unchanged in the error
  case because the match engine re-loads a fresh copy on every call.
  The playoff engine instead caches its bracket in memory across
  calls, so its operations return the (possibly mutated) in-memory
  bracket also on the error path.
* Wall-clock fields (`lastUpdated`, `matchDate`, timestamps) and pure
  display fields (`logo`, `colors`, `matchName`, `venue`,
  `qualificationStatus`, the `shortName` copy on standings rows) are
  omitted: no claim mentions them.
* `Array.prototype.sort` (stable since ES2019) is modelled by
  `List.mergeSort` on the comparator's non-`gt` relation, and
  `localeCompare(·, 'ar')` by code-point lexicographic comparison of
  the character sequences.
-/

namespace Salfoon

/-- A JavaScript value supplied as a goal input: an integer-valued
number, a string, `null` or `undefined`. -/
inductive JSVal where
  | jnull
  | jundef
  | jnum (n : Int)
  | jstr (s : String)
  deriving DecidableEq

/-- Leading digits of a character list, as in `parseInt`. -/
def takeDigits (cs : List Char) : List Char := cs.takeWhile Char.isDigit

/-- Numeric value of a digit list. -/
def digitsToNat (ds : List Char) : Nat :=
  ds.foldl (fun acc c => acc * 10 + (c.toNat - '0'.toNat)) 0

/-- Model of `parseInt` on a string: skip leading whitespace, read an
optional sign and then the longest prefix of decimal digits; `none`
models a `NaN` result. -/
def parseIntStr (s : String) : Option Int :=
  let cs := s.data.dropWhile Char.isWhitespace
  match cs with
  | '-' :: rest =>
      let ds := takeDigits rest
      if ds.isEmpty then none else some (-(digitsToNat ds : Int))
  | '+' :: rest =>
      let ds := takeDigits rest
      if ds.isEmpty then none else some ((digitsToNat ds : Int))
  | rest =>
      let ds := takeDigits rest
      if ds.isEmpty then none else some ((digitsToNat ds : Int))

/-- Model of `parseInt(value)` on a JS value. `parseInt` of an
integer-valued number is that integer; `parseInt` of a string parses
its leading integer part; `parseInt(null)` and `parseInt(undefined)`
are `NaN`. -/
def jsParseInt : JSVal → Option Int
  | .jnum n => some n
  | .jstr s => parseIntStr s
  | .jnull => none
  | .jundef => none

/-- JS truthiness test for `value !== null && value !== undefined`. -/
def isProvided : JSVal → Bool
  | .jnull => false
  | .jundef => false
  | .jnum _ => true
  | .jstr _ => true

/-- JS `x || null` on a nullable number: a falsy value (absent or the
number `0`) becomes `null`. -/
def orNullInt (v : Option Int) : Option Int :=
  match v with
  | some n => if n ≠ 0 then some n else none
  | none => none

/-- JS `x || null` on a nullable string: absent or empty becomes
`null`. -/
def orNullStr (v : Option String) : Option String :=
  match v with
  | some s => if s ≠ "" then some s else none
  | none => none

/-- JS `x || dflt` on a nullable string. -/
def orDefaultStr (v : Option String) (dflt : String) : String :=
  match v with
  | some s => if s ≠ "" then s else dflt
  | none => dflt

/-- Replace the first element satisfying `p` (the object JS `find`
returns and mutates in place). -/
def updateFirstBy (p : α → Bool) (f : α → α) : List α → List α
  | [] => []
  | x :: xs => if p x then f x :: xs else x :: updateFirstBy p f xs

/-- Equality on engine outcomes is decidable (used to evaluate the
operations on concrete fixtures). -/
instance {ε α : Type} [DecidableEq ε] [DecidableEq α] :
    DecidableEq (Except ε α) := fun x y =>
  match x, y with
  | .ok a, .ok b =>
      if h : a = b then .isTrue (by rw [h])
      else .isFalse (by intro hc; cases hc; exact h rfl)
  | .error e, .error f =>
      if h : e = f then .isTrue (by rw [h])
      else .isFalse (by intro hc; cases hc; exact h rfl)
  | .ok _, .error _ => .isFalse (by intro hc; cases hc)
  | .error _, .ok _ => .isFalse (by intro hc; cases hc)

/-- Match status domain (`validStatuses` in `matchEngine.js`). -/
inductive Status where
  | scheduled
  | played
  | postponed
  deriving DecidableEq

/-- String rendering of a status, used in error messages. -/
def statusStr : Status → String
  | .scheduled => "scheduled"
  | .played => "played"
  | .postponed => "postponed"

/-- A stored match record (the persisted shape built by
`createMatch`). -/
structure MatchRec where
  id : String
  day : Int
  homeTeam : String
  awayTeam : String
  scheduledTime : String
  homeGoals : Option Int
  awayGoals : Option Int
  status : Status
  bestPlayer : Option String
  postponementReason : Option String
  deriving DecidableEq

/-- The cached `statistics` aggregate on a team record. -/
structure TeamStats where
  played : Int
  won : Int
  drawn : Int
  lost : Int
  goalsFor : Int
  goalsAgainst : Int
  points : Int
  deriving DecidableEq

/-- A stored team record (identity plus cached statistics). -/
structure Team where
  id : String
  name : String
  statistics : TeamStats
  deriving DecidableEq

/-- The two persisted collections the match engine reads and writes. -/
structure Store where
  teams : List Team
  matchList : List MatchRec
  deriving DecidableEq

/-- Result triple of `calculatePoints` in `tournamentEngine.js`. -/
structure PointsResult where
  homePoints : Int
  awayPoints : Int
  result : String
  deriving DecidableEq

/-- `calculatePoints(matchResult)`: null goals give `not_played`;
otherwise win = 3, draw = 1, loss = 0 per the `pointsSystem`
constants. -/
def calculatePoints (m : MatchRec) : PointsResult :=
  match m.homeGoals, m.awayGoals with
  | some homeGoals, some awayGoals =>
      if homeGoals > awayGoals then ⟨3, 0, "home_win"⟩
      else if awayGoals > homeGoals then ⟨0, 3, "away_win"⟩
      else ⟨1, 1, "draw"⟩
  | _, _ => ⟨0, 0, "not_played"⟩

/-- A standings row as built by `calculateStandings` in
`standingsEngine.js`. -/
structure Row where
  teamId : String
  teamName : String
  played : Int
  won : Int
  drawn : Int
  lost : Int
  goalsFor : Int
  goalsAgainst : Int
  goalDifference : Int
  points : Int
  form : List Char
  qualified : Bool
  position : Int
  deriving DecidableEq

/-- Initial zeroed standings row for a team. -/
def initRow (t : Team) : Row :=
  { teamId := t.id, teamName := t.name, played := 0, won := 0, drawn := 0,
    lost := 0, goalsFor := 0, goalsAgainst := 0, goalDifference := 0,
    points := 0, form := [], qualified := false, position := 0 }

/-- Filter used by the standings calculator: status `played` and both
goals non-null. -/
def isPlayedWithGoals (m : MatchRec) : Bool :=
  decide (m.status = .played ∧ m.homeGoals ≠ none ∧ m.awayGoals ≠ none)

/-- Append one result character to a row's form. -/
def pushForm (c : Char) (r : Row) : Row := { r with form := r.form ++ [c] }

/-- Keep only the last 5 form entries (`form.slice(-5)` when the
length exceeds 5). -/
def capForm (r : Row) : Row :=
  if r.form.length > 5 then { r with form := r.form.drop (r.form.length - 5) }
  else r

/-- Home-side counter increments of the `forEach` body. -/
def homeCounters (m : MatchRec) (points : PointsResult) (r : Row) : Row :=
  { r with
      played := r.played + 1
      goalsFor := r.goalsFor + m.homeGoals.getD 0
      goalsAgainst := r.goalsAgainst + m.awayGoals.getD 0
      points := r.points + points.homePoints }

/-- Away-side counter increments of the `forEach` body. -/
def awayCounters (m : MatchRec) (points : PointsResult) (r : Row) : Row :=
  { r with
      played := r.played + 1
      goalsFor := r.goalsFor + m.awayGoals.getD 0
      goalsAgainst := r.goalsAgainst + m.homeGoals.getD 0
      points := r.points + points.awayPoints }

/-- Win bookkeeping: `won += 1` and a form push of `'W'`. -/
def wonPush (r : Row) : Row := pushForm 'W' { r with won := r.won + 1 }

/-- Loss bookkeeping: `lost += 1` and a form push of `'L'`. -/
def lostPush (r : Row) : Row := pushForm 'L' { r with lost := r.lost + 1 }

/-- Draw bookkeeping: `drawn += 1` and a form push of `'D'`. -/
def drawnPush (r : Row) : Row := pushForm 'D' { r with drawn := r.drawn + 1 }

/-- One iteration of the `playedMatches.forEach` body in
`calculateStandings`: if both referenced teams are present, fold the
match into their rows (counters, then result/form pushes, then the
form cap). -/
def processMatch (standings : List Row) (m : MatchRec) : List Row :=
  if (standings.any fun r => decide (r.teamId = m.homeTeam)) &&
     (standings.any fun r => decide (r.teamId = m.awayTeam)) then
    let points := calculatePoints m
    let s1 := updateFirstBy (fun r => decide (r.teamId = m.homeTeam))
      (homeCounters m points) standings
    let s2 := updateFirstBy (fun r => decide (r.teamId = m.awayTeam))
      (awayCounters m points) s1
    let s3 :=
      if points.result = "home_win" then
        updateFirstBy (fun r => decide (r.teamId = m.awayTeam)) lostPush
          (updateFirstBy (fun r => decide (r.teamId = m.homeTeam)) wonPush s2)
      else if points.result = "away_win" then
        updateFirstBy (fun r => decide (r.teamId = m.homeTeam)) lostPush
          (updateFirstBy (fun r => decide (r.teamId = m.awayTeam)) wonPush s2)
      else if points.result = "draw" then
        updateFirstBy (fun r => decide (r.teamId = m.awayTeam)) drawnPush
          (updateFirstBy (fun r => decide (r.teamId = m.homeTeam)) drawnPush s2)
      else s2
    let s4 := updateFirstBy (fun r => decide (r.teamId = m.homeTeam)) capForm s3
    updateFirstBy (fun r => decide (r.teamId = m.awayTeam)) capForm s4
  else standings

/-- The pass computing `goalDifference = goalsFor - goalsAgainst`. -/
def applyGoalDifference (rows : List Row) : List Row :=
  rows.map fun r => { r with goalDifference := r.goalsFor - r.goalsAgainst }

/-- Sign of a JS numeric comparator return value. -/
def ordOfInt (n : Int) : Ordering :=
  if n < 0 then .lt else if n = 0 then .eq else .gt

/-- Code-point lexicographic comparison of character lists. -/
def lexCompare : List Char → List Char → Ordering
  | [], [] => .eq
  | [], _ :: _ => .lt
  | _ :: _, [] => .gt
  | c :: cs, d :: ds =>
      if c < d then .lt else if d < c then .gt else lexCompare cs ds

/-- Model of `a.localeCompare(b, 'ar')`: a total string comparison; the
locale collation is abstracted as code-point order. -/
def localeCompareAr (a b : String) : Ordering := lexCompare a.data b.data

/-- The comparator of `applyTieBreakers`: points desc, then goal
difference desc, then goals for desc, then goals against asc, then
team name. -/
def tieBreakCompare (a b : Row) : Ordering :=
  if b.points ≠ a.points then ordOfInt (b.points - a.points)
  else if b.goalDifference ≠ a.goalDifference then
    ordOfInt (b.goalDifference - a.goalDifference)
  else if b.goalsFor ≠ a.goalsFor then ordOfInt (b.goalsFor - a.goalsFor)
  else if a.goalsAgainst ≠ b.goalsAgainst then
    ordOfInt (a.goalsAgainst - b.goalsAgainst)
  else localeCompareAr a.teamName b.teamName

/-- `applyTieBreakers(teams)`: a stable sort of the rows by the
tie-break comparator. -/
def applyTieBreakers (teams : List Row) : List Row :=
  teams.mergeSort fun a b => decide (tieBreakCompare a b ≠ .gt)

/-- The `playoffQualifiers` constant (top 4 qualify). -/
def playoffQualifiers : Nat := 4

/-- `determineQualification(sortedStandings)`: assign 1-based position
and the top-4 qualification flag. -/
def determineQualification (sortedStandings : List Row) : List Row :=
  sortedStandings.enum.map fun p =>
    { p.2 with position := (p.1 : Int) + 1,
               qualified := decide (p.1 < playoffQualifiers) }

/-- `calculateStandings(matches)` over an explicit team roster and
match list: zeroed rows, fold the played matches in list order, goal
difference, tie-break sort, qualification. -/
def calculateStandings (teams : List Team) (matchList : List MatchRec) :
    List Row :=
  let standings := teams.map initRow
  let playedMatches := matchList.filter isPlayedWithGoals
  let folded := playedMatches.foldl processMatch standings
  determineQualification (applyTieBreakers (applyGoalDifference folded))

/-- The transition map of `validateStatusTransition` in
`matchEngine.js`. -/
def validTransitions : Status → List Status
  | .scheduled => [.played, .postponed]
  | .played => [.postponed]
  | .postponed => [.scheduled, .played]

/-- `validateStatusTransition(oldStatus, newStatus)` as a Boolean. -/
def validateStatusTransition (oldStatus newStatus : Status) : Bool :=
  (validTransitions oldStatus).any fun s => decide (s = newStatus)

/-- Input shape accepted by `createMatch` (goal inputs restricted to
integer-valued JS numbers or absent). -/
structure MatchInput where
  id : String
  day : Int
  homeTeam : String
  awayTeam : String
  scheduledTime : Option String
  homeGoals : Option Int
  awayGoals : Option Int
  status : Option Status
  bestPlayer : Option String
  postponementReason : Option String
  deriving DecidableEq

/-- Minute pair of the `HH:MM` time regex: `[0-5][0-9]`. -/
def isMinutePair (m1 m2 : Char) : Bool :=
  decide ('0' ≤ m1 ∧ m1 ≤ '5') && m2.isDigit

/-- The time-format regex `^([01]?[0-9]|2[0-3]):[0-5][0-9]$`. -/
def isValidTime (s : String) : Bool :=
  match s.data with
  | [h1, c, m1, m2] => decide (c = ':') && h1.isDigit && isMinutePair m1 m2
  | [h1, h2, c, m1, m2] =>
      decide (c = ':') &&
      ((decide (h1 = '0' ∨ h1 = '1') && h2.isDigit) ||
        (decide (h1 = '2') && decide ('0' ≤ h2 ∧ h2 ≤ '3'))) &&
      isMinutePair m1 m2
  | _ => false

/-- `validateMatchData(data)`: `none` means valid, `some e` carries the
first failing check's message. The status-string check is subsumed by
the `Status` type; `!data.day` is the JS falsy test on the number. -/
def validateMatchData (data : MatchInput) (teams : List Team) :
    Option String :=
  let badHomeGoals : Bool :=
    match data.homeGoals with
    | some g => decide (g < 0)
    | none => false
  let badAwayGoals : Bool :=
    match data.awayGoals with
    | some g => decide (g < 0)
    | none => false
  let badTime : Bool :=
    match data.scheduledTime with
    | some s => decide (s ≠ "") && !isValidTime s
    | none => false
  if data.id = "" then some "Match ID is required"
  else if data.day = 0 then some "Valid match day is required"
  else if data.homeTeam = "" ∨ data.awayTeam = "" then
    some "Home and away teams are required"
  else if data.homeTeam = data.awayTeam then
    some "Home and away teams cannot be the same"
  else if data.day < 3 ∨ data.day > 23 then
    some "Match day must be between 3 and 23"
  else if ¬ teams.any (fun t => decide (t.id = data.homeTeam)) then
    some ("Home team " ++ data.homeTeam ++ " does not exist")
  else if ¬ teams.any (fun t => decide (t.id = data.awayTeam)) then
    some ("Away team " ++ data.awayTeam ++ " does not exist")
  else if badHomeGoals then some "Invalid home team goals"
  else if badAwayGoals then some "Invalid away team goals"
  else if badTime then some "Invalid time format. Use HH:MM format"
  else none

/-- `createMatch(matchData)`: validate, reject duplicate ids, build the
new record (note the `|| null` falsy normalization of the goal
fields), append and re-sort the collection by day. -/
def createMatch (matchData : MatchInput) (store : Store) :
    Except String (Store × MatchRec) :=
  match validateMatchData matchData store.teams with
  | some e => .error e
  | none =>
    if store.matchList.any (fun m => decide (m.id = matchData.id)) then
      .error ("Match with ID " ++ matchData.id ++ " already exists")
    else
      let newMatch : MatchRec :=
        { id := matchData.id
          day := matchData.day
          homeTeam := matchData.homeTeam
          awayTeam := matchData.awayTeam
          scheduledTime := orDefaultStr matchData.scheduledTime "21:00"
          homeGoals := orNullInt matchData.homeGoals
          awayGoals := orNullInt matchData.awayGoals
          status := matchData.status.getD .scheduled
          bestPlayer := orNullStr matchData.bestPlayer
          postponementReason := orNullStr matchData.postponementReason }
      let sorted := (store.matchList ++ [newMatch]).mergeSort
        fun a b => decide (a.day ≤ b.day)
      .ok ({ store with matchList := sorted }, newMatch)

/-- Home-side statistics increments for one played match. -/
def homeStatsUpdate (points : PointsResult) (hg ag : Int)
    (s : TeamStats) : TeamStats :=
  { played := s.played + 1
    won := s.won + (if points.result = "home_win" then 1 else 0)
    drawn := s.drawn + (if points.result = "draw" then 1 else 0)
    lost := s.lost + (if points.result = "away_win" then 1 else 0)
    goalsFor := s.goalsFor + hg
    goalsAgainst := s.goalsAgainst + ag
    points := s.points + points.homePoints }

/-- Away-side statistics increments for one played match. -/
def awayStatsUpdate (points : PointsResult) (hg ag : Int)
    (s : TeamStats) : TeamStats :=
  { played := s.played + 1
    won := s.won + (if points.result = "away_win" then 1 else 0)
    drawn := s.drawn + (if points.result = "draw" then 1 else 0)
    lost := s.lost + (if points.result = "home_win" then 1 else 0)
    goalsFor := s.goalsFor + ag
    goalsAgainst := s.goalsAgainst + hg
    points := s.points + points.awayPoints }

/-- The per-match `statistics` increment block shared by
`updateTeamStatistics` and `recalculateAllStatistics`. -/
def applyMatchToTeams (teams : List Team) (m : MatchRec) : List Team :=
  let points := calculatePoints m
  let hg := m.homeGoals.getD 0
  let ag := m.awayGoals.getD 0
  let t1 := updateFirstBy (fun t => decide (t.id = m.homeTeam))
    (fun t => { t with statistics := homeStatsUpdate points hg ag t.statistics })
    teams
  updateFirstBy (fun t => decide (t.id = m.awayTeam))
    (fun t => { t with statistics := awayStatsUpdate points hg ag t.statistics })
    t1

/-- `updateTeamStatistics(match)`: incremental statistics update; a
guard failure or a missing team leaves the stored teams unchanged
(the source returns `false` without saving). -/
def updateTeamStatistics (m : MatchRec) (store : Store) : Store :=
  if ¬ (m.status = .played ∧ m.homeGoals ≠ none ∧ m.awayGoals ≠ none) then
    store
  else if ¬ ((store.teams.any fun t => decide (t.id = m.homeTeam)) &&
      (store.teams.any fun t => decide (t.id = m.awayTeam))) then store
  else { store with teams := applyMatchToTeams store.teams m }

/-- Zeroed statistics aggregate. -/
def zeroStats : TeamStats := ⟨0, 0, 0, 0, 0, 0, 0⟩

/-- `recalculateAllStatistics()`: reset every team's aggregate and
replay all currently played matches. -/
def recalculateAllStatistics (store : Store) : Store :=
  let reset := store.teams.map fun t => { t with statistics := zeroStats }
  let playedMatches := store.matchList.filter isPlayedWithGoals
  let rebuilt := playedMatches.foldl
    (fun ts m =>
      if (ts.any fun t => decide (t.id = m.homeTeam)) &&
         (ts.any fun t => decide (t.id = m.awayTeam)) then
        applyMatchToTeams ts m
      else ts)
    reset
  { store with teams := rebuilt }

/-- Input shape of `updateResult`'s `result` argument. -/
structure ResultInput where
  homeGoals : JSVal
  awayGoals : JSVal
  bestPlayer : Option String
  deriving DecidableEq

/-- The status flip of `updateResult`: once both goals are non-null
the match becomes `played`. -/
def applyPlayedFlag (m : MatchRec) : MatchRec :=
  if m.homeGoals ≠ none ∧ m.awayGoals ≠ none then { m with status := .played }
  else m

/-- The best-player step of `updateResult` (truthy values only). -/
def applyBestPlayer (bp : Option String) (m : MatchRec) : MatchRec :=
  match bp with
  | some s => if s ≠ "" then { m with bestPlayer := some s } else m
  | none => m

/-- The home-goal validation step of `updateResult`: a provided value
is parsed with `parseInt` and rejected when `NaN` or negative. -/
def applyHomeGoals (v : JSVal) (m : MatchRec) : Except String MatchRec :=
  if isProvided v then
    match jsParseInt v with
    | none => .error "Invalid home team goals"
    | some homeGoals =>
      if homeGoals < 0 then .error "Invalid home team goals"
      else .ok { m with homeGoals := some homeGoals }
  else .ok m

/-- The away-goal validation step of `updateResult`. -/
def applyAwayGoals (v : JSVal) (m : MatchRec) : Except String MatchRec :=
  if isProvided v then
    match jsParseInt v with
    | none => .error "Invalid away team goals"
    | some awayGoals =>
      if awayGoals < 0 then .error "Invalid away team goals"
      else .ok { m with awayGoals := some awayGoals }
  else .ok m

/-- `updateResult(matchId, result)`: parse and validate each provided
goal value with `parseInt`, flip status to `played` once both goals
are non-null, store, and run the incremental statistics update. -/
def updateResult (matchId : String) (result : ResultInput)
    (store : Store) : Except String (Store × MatchRec) :=
  if matchId = "" then .error "Match ID and result are required"
  else
    match store.matchList.find? (fun m => decide (m.id = matchId)) with
    | none => .error ("Match with ID " ++ matchId ++ " not found")
    | some m0 =>
      match applyHomeGoals result.homeGoals m0 with
      | .error e => .error e
      | .ok m1 =>
        match applyAwayGoals result.awayGoals m1 with
        | .error e => .error e
        | .ok m2 =>
          let m4 := applyBestPlayer result.bestPlayer (applyPlayedFlag m2)
          let saved := updateFirstBy (fun m => decide (m.id = matchId))
            (fun _ => m4) store.matchList
          let store1 := { store with matchList := saved }
          let store2 :=
            if m4.status = .played then updateTeamStatistics m4 store1
            else store1
          .ok (store2, m4)

/-- The postponement step of `setMatchStatus`: a postponement needs a
truthy reason and, from `played`, clears goals and best player; any
other target status clears the stored reason. -/
def applyPostponement (status : Status) (reason : Option String)
    (oldStatus : Status) (m1 : MatchRec) : Except String MatchRec :=
  if status = .postponed then
    match reason with
    | none => .error "Postponement reason is required"
    | some r =>
      if r = "" then .error "Postponement reason is required"
      else
        let withReason := { m1 with postponementReason := some r }
        if oldStatus = .played then
          .ok { withReason with
            homeGoals := none
            awayGoals := none
            bestPlayer := none }
        else .ok withReason
  else .ok { m1 with postponementReason := none }

/-- `setMatchStatus(matchId, status, reason)`: transition validation,
the postponement side effects, and the statistics recomputation
policy. Returns the new store, the updated match and the old
status. -/
def setMatchStatus (matchId : String) (status : Status)
    (reason : Option String) (store : Store) :
    Except String (Store × MatchRec × Status) :=
  if matchId = "" then .error "Match ID and status are required"
  else
    match store.matchList.find? (fun m => decide (m.id = matchId)) with
    | none => .error ("Match with ID " ++ matchId ++ " not found")
    | some m0 =>
      let oldStatus := m0.status
      if ¬ validateStatusTransition oldStatus status then
        .error ("Invalid status transition from " ++
          statusStr oldStatus ++ " to " ++ statusStr status)
      else
        match applyPostponement status reason oldStatus
            { m0 with status := status } with
        | .error e => .error e
        | .ok m2 =>
          let saved := updateFirstBy (fun m => decide (m.id = matchId))
            (fun _ => m2) store.matchList
          let store1 := { store with matchList := saved }
          let store2 :=
            if oldStatus = .played ∧ status ≠ .played then
              recalculateAllStatistics store1
            else if status = .played ∧ m2.homeGoals ≠ none ∧
                m2.awayGoals ≠ none then
              updateTeamStatistics m2 store1
            else store1
          .ok (store2, m2, oldStatus)

/-- Penalty-shootout outcome supplied to a playoff resolution
(`{winner: 'home' | 'away'}`). -/
structure Penalty where
  winner : String
  deriving DecidableEq

/-- A seeded team slot in the bracket (`{id, name, seed, stats}`). -/
structure SeedTeam where
  id : String
  name : String
  seed : Int
  stats : Row
  deriving DecidableEq

/-- A semifinal entry of the bracket: both teams are assigned at
generation time. -/
structure Semifinal where
  id : String
  homeTeam : SeedTeam
  awayTeam : SeedTeam
  status : String
  homeGoals : Option Int
  awayGoals : Option Int
  winner : Option SeedTeam
  loser : Option SeedTeam
  penaltyResult : Option Penalty
  deriving DecidableEq

/-- The final entry of the bracket: teams are null until both
semifinals resolve. -/
structure FinalMatch where
  id : String
  homeTeam : Option SeedTeam
  awayTeam : Option SeedTeam
  status : String
  homeGoals : Option Int
  awayGoals : Option Int
  winner : Option SeedTeam
  champion : Option SeedTeam
  runnerUp : Option SeedTeam
  penaltyResult : Option Penalty
  deriving DecidableEq

/-- The third-place entry of the bracket. -/
structure ThirdPlaceMatch where
  id : String
  homeTeam : Option SeedTeam
  awayTeam : Option SeedTeam
  status : String
  homeGoals : Option Int
  awayGoals : Option Int
  winner : Option SeedTeam
  deriving DecidableEq

/-- Bracket metadata (timestamps omitted). -/
structure BracketMeta where
  tournamentPhase : String
  bracketType : String
  qualifiedTeams : List Row
  champion : Option SeedTeam
  runnerUp : Option SeedTeam
  deriving DecidableEq

/-- The persisted bracket snapshot; the source's two-element
`semifinals` array is modelled by the `semi1`/`semi2` fields. -/
structure Bracket where
  semi1 : Semifinal
  semi2 : Semifinal
  final : FinalMatch
  thirdPlace : ThirdPlaceMatch
  metadata : BracketMeta
  deriving DecidableEq

/-- `generatePlayoffBracket()` on an explicit standings list (the
source reads `calculateStandings()`); `teamName` models the
`getTeamName` storage lookup. Fewer than 4 rows is the thrown/`null`
path. -/
def generatePlayoffBracket (standings : List Row)
    (teamName : String → String) : Option Bracket :=
  match standings with
  | t1 :: t2 :: t3 :: t4 :: _ =>
      some
        { semi1 :=
            { id := "semi-1"
              homeTeam := ⟨t1.teamId, teamName t1.teamId, 1, t1⟩
              awayTeam := ⟨t4.teamId, teamName t4.teamId, 4, t4⟩
              status := "scheduled"
              homeGoals := none
              awayGoals := none
              winner := none
              loser := none
              penaltyResult := none }
          semi2 :=
            { id := "semi-2"
              homeTeam := ⟨t2.teamId, teamName t2.teamId, 2, t2⟩
              awayTeam := ⟨t3.teamId, teamName t3.teamId, 3, t3⟩
              status := "scheduled"
              homeGoals := none
              awayGoals := none
              winner := none
              loser := none
              penaltyResult := none }
          final :=
            { id := "final"
              homeTeam := none
              awayTeam := none
              status := "pending"
              homeGoals := none
              awayGoals := none
              winner := none
              champion := none
              runnerUp := none
              penaltyResult := none }
          thirdPlace :=
            { id := "third-place"
              homeTeam := none
              awayTeam := none
              status := "pending"
              homeGoals := none
              awayGoals := none
              winner := none }
          metadata :=
            { tournamentPhase := "playoffs"
              bracketType := "1v4_2v3"
              qualifiedTeams := [t1, t2, t3, t4]
              champion := none
              runnerUp := none } }
  | _ => none

/-- `updateBracketProgression()`: populate the final once both
semifinal winners exist, and the third-place match once both losers
exist. -/
def updateBracketProgression (b : Bracket) : Bracket :=
  let b1 :=
    if b.semi1.winner.isSome && b.semi2.winner.isSome then
      { b with final := { b.final with
          homeTeam := b.semi1.winner
          awayTeam := b.semi2.winner
          status := "scheduled" } }
    else b
  if b1.semi1.loser.isSome && b1.semi2.loser.isSome then
    { b1 with thirdPlace := { b1.thirdPlace with
        homeTeam := b1.semi1.loser
        awayTeam := b1.semi2.loser
        status := "scheduled" } }
  else b1

/-- Outcome of a semifinal resolution call. `ok` carries the saved
bracket and the returned semifinal record; `err` carries the caught
error message and the in-memory bracket after any partial mutation
(the store is not rewritten on this path). -/
inductive SemiOutcome where
  | ok (bracket : Bracket) (result : Semifinal)
  | err (message : String) (bracket : Bracket)
  deriving DecidableEq

/-- The body of `updateSemifinalResult` once a semifinal is selected;
`put` writes the (mutated) semifinal back into the bracket. Note the
goals and completed status are written before the draw check. -/
def semiStep (s : Semifinal) (put : Semifinal → Bracket)
    (homeGoals awayGoals : Int) (penaltyResult : Option Penalty) :
    SemiOutcome :=
  let finish := fun (s2 : Semifinal) (w l : SeedTeam) =>
    let s3 := { s2 with winner := some w, loser := some l }
    SemiOutcome.ok (updateBracketProgression (put s3)) s3
  let s1 := { s with
    homeGoals := some homeGoals
    awayGoals := some awayGoals
    status := "completed" }
  if homeGoals > awayGoals then finish s1 s1.homeTeam s1.awayTeam
  else if awayGoals > homeGoals then finish s1 s1.awayTeam s1.homeTeam
  else
    match penaltyResult with
    | some p =>
        let s2 := { s1 with penaltyResult := some p }
        if p.winner = "home" then finish s2 s2.homeTeam s2.awayTeam
        else finish s2 s2.awayTeam s2.homeTeam
    | none => .err "Draw result requires penalty shootout result" (put s1)

/-- `updateSemifinalResult(matchId, homeGoals, awayGoals, ...,
penaltyResult)`; the unused `extraTimeGoals` parameter is omitted. -/
def updateSemifinalResult (matchId : String) (homeGoals awayGoals : Int)
    (penaltyResult : Option Penalty) (b : Bracket) : SemiOutcome :=
  if b.semi1.id = matchId then
    semiStep b.semi1 (fun s => { b with semi1 := s }) homeGoals awayGoals
      penaltyResult
  else if b.semi2.id = matchId then
    semiStep b.semi2 (fun s => { b with semi2 := s }) homeGoals awayGoals
      penaltyResult
  else .err ("Semifinal match " ++ matchId ++ " not found") b

/-- Outcome of a final resolution call, like `SemiOutcome`. -/
inductive FinalOutcome where
  | ok (bracket : Bracket) (result : FinalMatch)
  | err (message : String) (bracket : Bracket)
  deriving DecidableEq

/-- `updateFinalResult(homeGoals, awayGoals, ..., penaltyResult)`:
guarded only by the final's home team being assigned; sets champion
and runner-up and flips the phase to completed. -/
def updateFinalResult (homeGoals awayGoals : Int)
    (penaltyResult : Option Penalty) (b : Bracket) : FinalOutcome :=
  if b.final.homeTeam.isNone then
    .err "Final match not ready or bracket not generated" b
  else
    let f1 := { b.final with
      homeGoals := some homeGoals
      awayGoals := some awayGoals
      status := "completed" }
    let finish := fun (f2 : FinalMatch) (champion runnerUp : Option SeedTeam) =>
      let f3 := { f2 with
        winner := champion
        champion := champion
        runnerUp := runnerUp }
      let meta := { b.metadata with
        tournamentPhase := "completed"
        champion := champion
        runnerUp := runnerUp }
      FinalOutcome.ok { b with final := f3, metadata := meta } f3
    if homeGoals > awayGoals then finish f1 f1.homeTeam f1.awayTeam
    else if awayGoals > homeGoals then finish f1 f1.awayTeam f1.homeTeam
    else
      match penaltyResult with
      | some p =>
          let f2 := { f1 with penaltyResult := some p }
          if p.winner = "home" then finish f2 f2.homeTeam f2.awayTeam
          else finish f2 f2.awayTeam f2.homeTeam
      | none => .err "Final draw requires penalty shootout result"
          { b with final := f1 }

/-- The last at-most-five entries of a list (the value the iterated
`slice(-5)` cap maintains). -/
def lastFive (l : List Char) : List Char := l.drop (l.length - 5)

/-- The conditional per-row update a key-unique `updateFirstBy`
amounts to. -/
def condK (k : String) (f : Row → Row) (x : Row) : Row :=
  if x.teamId = k then f x else x

/-- The result-branch pushes of the `forEach` body as a per-row
function. -/
def resultPush (m : MatchRec) (x : Row) : Row :=
  if (calculatePoints m).result = "home_win" then
    condK m.awayTeam lostPush (condK m.homeTeam wonPush x)
  else if (calculatePoints m).result = "away_win" then
    condK m.homeTeam lostPush (condK m.awayTeam wonPush x)
  else if (calculatePoints m).result = "draw" then
    condK m.awayTeam drawnPush (condK m.homeTeam drawnPush x)
  else x

/-- The whole guard-passed `forEach` body as a per-row function. -/
def rowUpdate (m : MatchRec) (x : Row) : Row :=
  condK m.awayTeam capForm (condK m.homeTeam capForm
    (resultPush m (condK m.awayTeam (awayCounters m (calculatePoints m))
      (condK m.homeTeam (homeCounters m (calculatePoints m)) x))))

/-- The W/D/L characters one match pushes for team `t` inside the
guard (mirroring the result branches of the `forEach` body). -/
def stepCore (m : MatchRec) (t : String) : List Char :=
  if (calculatePoints m).result = "home_win" then
    if t = m.homeTeam then ['W'] else if t = m.awayTeam then ['L'] else []
  else if (calculatePoints m).result = "away_win" then
    if t = m.awayTeam then ['W'] else if t = m.homeTeam then ['L'] else []
  else if (calculatePoints m).result = "draw" then
    if t = m.homeTeam ∨ t = m.awayTeam then ['D'] else []
  else []

/-- The W/D/L characters pushed for team `t` by one match of the
`forEach` body, including its presence guard. -/
def stepChars (ids : List String) (t : String) (m : MatchRec) :
    List Char :=
  if (ids.any fun i => decide (i = m.homeTeam)) &&
     (ids.any fun i => decide (i = m.awayTeam)) then stepCore m t
  else []

/-- The W/D/L characters pushed for team `t` while folding a match
list in order. -/
def resultCharsFor (ids : List String) (t : String)
    (ms : List MatchRec) : List Char :=
  ms.foldl (fun acc m => acc ++ stepChars ids t m) []

/-- The explicit tie-break chain as a proposition: `a` strictly
precedes `b`. -/
def rowPrecedes (a b : Row) : Prop :=
  b.points < a.points ∨
    (b.points = a.points ∧
      (b.goalDifference < a.goalDifference ∨
        (b.goalDifference = a.goalDifference ∧
          (b.goalsFor < a.goalsFor ∨
            (b.goalsFor = a.goalsFor ∧
              (a.goalsAgainst < b.goalsAgainst ∨
                (a.goalsAgainst = b.goalsAgainst ∧
                  localeCompareAr a.teamName b.teamName = .lt)))))))

/- Concrete fixtures used by witnesses and counterexamples. -/

/-- Fixture team A. -/
def teamA : Team := ⟨"A", "Alpha", zeroStats⟩

/-- Fixture team B. -/
def teamB : Team := ⟨"B", "Beta", zeroStats⟩

/-- Fixture store holding the two teams and no matches. -/
def store0 : Store := ⟨[teamA, teamB], []⟩

/-- Fixture scheduled match between A and B. -/
def schedMatch : MatchRec :=
  ⟨"m1", 5, "A", "B", "21:00", none, none, .scheduled, none, none⟩

/-- Fixture store holding the two teams and the scheduled match. -/
def storeSched : Store := ⟨[teamA, teamB], [schedMatch]⟩

/-- Fixture played match (A 2-1 B on day 5). -/
def playedMatch : MatchRec :=
  ⟨"m1", 5, "A", "B", "21:00", some 2, some 1, .played, none, none⟩

/-- Fixture store holding the two teams and the played match. -/
def storePlayed : Store := ⟨[teamA, teamB], [playedMatch]⟩

/-- Fixture `createMatch` input carrying only a home score. -/
def halfInput : MatchInput :=
  ⟨"m9", 5, "A", "B", none, some 2, none, none, none, none⟩

/-- Fixture `createMatch` input carrying the legitimate score 0-1. -/
def zeroInput : MatchInput :=
  ⟨"m9", 5, "A", "B", none, some 0, some 1, none, none, none⟩

/-- Fixture day-10 match: A beats B 1-0. -/
def lateMatch : MatchRec :=
  ⟨"d10", 10, "A", "B", "21:00", some 1, some 0, .played, none, none⟩

/-- Fixture day-5 match: B beats A 1-0. -/
def earlyMatch : MatchRec :=
  ⟨"d5", 5, "A", "B", "21:00", some 0, some 1, .played, none, none⟩

/-- Fixture standings row with all counters zero. -/
def mkRow (tid nm : String) : Row :=
  { teamId := tid, teamName := nm, played := 0, won := 0, drawn := 0,
    lost := 0, goalsFor := 0, goalsAgainst := 0, goalDifference := 0,
    points := 0, form := [], qualified := false, position := 0 }

/-- Fixture seeded slot for rank 1. -/
def seed1 : SeedTeam := ⟨"T1", "T1", 1, mkRow "T1" "T1"⟩

/-- Fixture seeded slot for rank 2. -/
def seed2 : SeedTeam := ⟨"T2", "T2", 2, mkRow "T2" "T2"⟩

/-- Fixture seeded slot for rank 3. -/
def seed3 : SeedTeam := ⟨"T3", "T3", 3, mkRow "T3" "T3"⟩

/-- Fixture seeded slot for rank 4. -/
def seed4 : SeedTeam := ⟨"T4", "T4", 4, mkRow "T4" "T4"⟩

/-- Fixture freshly generated bracket (no semifinal resolved). -/
def bracket0 : Bracket :=
  { semi1 := ⟨"semi-1", seed1, seed4, "scheduled", none, none, none, none, none⟩
    semi2 := ⟨"semi-2", seed2, seed3, "scheduled", none, none, none, none, none⟩
    final := ⟨"final", none, none, "pending", none, none, none, none, none, none⟩
    thirdPlace := ⟨"third-place", none, none, "pending", none, none, none⟩
    metadata := ⟨"playoffs", "1v4_2v3",
      [mkRow "T1" "T1", mkRow "T2" "T2", mkRow "T3" "T3", mkRow "T4" "T4"],
      none, none⟩ }

/-- Fixture bracket whose first semifinal is already resolved
(seed 1 won 1-0). -/
def bracketResolved : Bracket :=
  { bracket0 with semi1 :=
      ⟨"semi-1", seed1, seed4, "completed", some 1, some 0,
        some seed1, some seed4, none⟩ }

/-- Fixture bracket of a completed tournament (both semifinals and
the final resolved, phase `completed`). -/
def bracketCompleted : Bracket :=
  { semi1 := ⟨"semi-1", seed1, seed4, "completed", some 1, some 0,
      some seed1, some seed4, none⟩
    semi2 := ⟨"semi-2", seed2, seed3, "completed", some 2, some 0,
      some seed2, some seed3, none⟩
    final := ⟨"final", some seed1, some seed2, "completed", some 1, some 0,
      some seed1, some seed1, some seed2, none⟩
    thirdPlace := ⟨"third-place", some seed4, some seed3, "scheduled",
      none, none, none⟩
    metadata := ⟨"completed", "1v4_2v3",
      [mkRow "T1" "T1", mkRow "T2" "T2", mkRow "T3" "T3", mkRow "T4" "T4"],
      some seed1, some seed2⟩ }

/-- Fixture played draw (A 1-1 B on day 5). -/
def drawMatch : MatchRec :=
  ⟨"m1", 5, "A", "B", "21:00", some 1, some 1, .played, none, none⟩

/-- Stored record produced by `createMatch` on `zeroInput`. -/
def zeroOutMatch : MatchRec :=
  ⟨"m9", 5, "A", "B", "21:00", none, some 1, .scheduled, none, none⟩

/-- Stored record produced by `createMatch` on `halfInput`. -/
def halfOutMatch : MatchRec :=
  ⟨"m9", 5, "A", "B", "21:00", some 2, none, .scheduled, none, none⟩

/-- Record left by postponing the fixture played match. -/
def postponedOut : MatchRec :=
  ⟨"m1", 5, "A", "B", "21:00", none, none, .postponed, none, some "rain"⟩

/-- Team A after its 2-1 fixture win is folded into statistics. -/
def teamA21 : Team := ⟨"A", "Alpha", ⟨1, 1, 0, 0, 2, 1, 3⟩⟩

/-- Team B after its 1-2 fixture loss is folded into statistics. -/
def teamB12 : Team := ⟨"B", "Beta", ⟨1, 0, 0, 1, 1, 2, 0⟩⟩

/-- Team A after the coerced 3-1 result is folded into statistics. -/
def teamA31 : Team := ⟨"A", "Alpha", ⟨1, 1, 0, 0, 3, 1, 3⟩⟩

/-- Team B after the coerced 1-3 result is folded into statistics. -/
def teamB13 : Team := ⟨"B", "Beta", ⟨1, 0, 0, 1, 1, 3, 0⟩⟩

/-- Stored record after the coerced "3.7" home goals update. -/
def coercedOutMatch : MatchRec :=
  ⟨"m1", 5, "A", "B", "21:00", some 3, some 1, .played, none, none⟩

/-- Match record returned by a successful `updateResult` call. -/
def okMatchOf : Except String (Store × MatchRec) → Option MatchRec
  | .ok (_, m) => some m
  | .error _ => none

/-- Returned semifinal record of a successful resolution call. -/
def semiResultOf : SemiOutcome → Option Semifinal
  | .ok _ s => some s
  | .err _ _ => none

/-- Saved bracket of a successful semifinal resolution call. -/
def semiBracketOf : SemiOutcome → Option Bracket
  | .ok b _ => some b
  | .err _ _ => none

/-- Error message of a failed semifinal resolution call. -/
def semiErrMsgOf : SemiOutcome → Option String
  | .ok _ _ => none
  | .err e _ => some e

/-- In-memory bracket left by a failed semifinal resolution call. -/
def semiErrBracketOf : SemiOutcome → Option Bracket
  | .ok _ _ => none
  | .err _ b => some b

/-- Returned final record of a successful final resolution call. -/
def finalResultOf : FinalOutcome → Option FinalMatch
  | .ok _ f => some f
  | .err _ _ => none

/-- Saved bracket of a successful final resolution call. -/
def finalBracketOf : FinalOutcome → Option Bracket
  | .ok b _ => some b
  | .err _ _ => none

/-! Helper lemmas. -/

/-- A constant replacement lands in the list when some element
satisfies the predicate. -/
theorem mem_updateFirstBy_const {p : α → Bool} {l : List α} {y : α}
    (h : ∃ x ∈ l, p x = true) : y ∈ updateFirstBy p (fun _ => y) l := by
  induction l with
  | nil => rcases h with ⟨x, hx, _⟩; cases hx
  | cons a as ih =>
      rcases h with ⟨x, hx, hp⟩
      by_cases ha : p a
      · simp [updateFirstBy, ha]
      · rcases List.mem_cons.mp hx with rfl | hx'
        · exact absurd hp (by simp [ha])
        · simp only [updateFirstBy, if_neg ha]
          exact List.mem_cons_of_mem _ (ih ⟨x, hx', hp⟩)

/-- A successful `find?` yields a member satisfying the predicate. -/
theorem exists_of_find?_eq_some {p : α → Bool} {l : List α} {a : α}
    (h : l.find? p = some a) : ∃ x ∈ l, p x = true :=
  ⟨a, List.mem_of_find?_eq_some h, List.find?_some h⟩

/-! ## Claim C5: points conservation -/

/-- C5 counterexample: the played 1-1 match (non-null goals, status
played) distributes 2 points in total, so the stated conservation of
exactly 3 points is false on draws. -/
theorem points_conservation_counterexample :
    drawMatch.status = Status.played ∧
    drawMatch.homeGoals = some 1 ∧ drawMatch.awayGoals = some 1 ∧
    (calculatePoints drawMatch).homePoints +
      (calculatePoints drawMatch).awayPoints = 2 ∧
    ¬ ((calculatePoints drawMatch).homePoints +
      (calculatePoints drawMatch).awayPoints = 3) := by
  decide

/-- C5 (amended): for every match with status played and non-null
goals, the points rule awards 3-0, 0-3 or 1-1; the total distributed
is 3 for a decisive result and 2 for a draw. -/
theorem points_distribution (m : MatchRec) (hg ag : Int)
    (_hst : m.status = Status.played)
    (hh : m.homeGoals = some hg) (ha : m.awayGoals = some ag) :
    (calculatePoints m = ⟨3, 0, "home_win"⟩ ∨
      calculatePoints m = ⟨0, 3, "away_win"⟩ ∨
      calculatePoints m = ⟨1, 1, "draw"⟩) ∧
    (calculatePoints m).homePoints + (calculatePoints m).awayPoints =
      (if hg = ag then 2 else 3) := by
  have hc : calculatePoints m =
      (if hg > ag then ⟨3, 0, "home_win"⟩
        else if ag > hg then ⟨0, 3, "away_win"⟩
        else ⟨1, 1, "draw"⟩) := by
    simp [calculatePoints, hh, ha]
  rcases lt_trichotomy hg ag with h | h | h
  · rw [hc, if_neg (by omega), if_pos h]
    refine ⟨Or.inr (Or.inl rfl), ?_⟩
    simp [if_neg (by omega : ¬ hg = ag)]
  · rw [hc, if_neg (by omega), if_neg (by omega)]
    refine ⟨Or.inr (Or.inr rfl), ?_⟩
    simp [if_pos h]
  · rw [hc, if_pos h]
    refine ⟨Or.inl rfl, ?_⟩
    simp [if_neg (by omega : ¬ hg = ag)]

/-- C5 witness: the amended theorem applied to the fixture 2-1 win. -/
theorem points_distribution_witness :
    playedMatch.status = Status.played ∧
    playedMatch.homeGoals = some 2 ∧ playedMatch.awayGoals = some 1 ∧
    ((calculatePoints playedMatch = ⟨3, 0, "home_win"⟩ ∨
      calculatePoints playedMatch = ⟨0, 3, "away_win"⟩ ∨
      calculatePoints playedMatch = ⟨1, 1, "draw"⟩) ∧
    (calculatePoints playedMatch).homePoints +
      (calculatePoints playedMatch).awayPoints =
      (if (2 : Int) = 1 then 2 else 3)) :=
  ⟨rfl, rfl, rfl, points_distribution playedMatch 2 1 rfl rfl rfl⟩

/-! ## Claim C10: creation-time zero scores are nulled -/

/-- C10: whenever `createMatch` succeeds, a goal input equal to the
number 0 is stored as `null` (the `|| null` normalization discards the
legitimate score 0); the returned record is the one appended to the
stored collection. -/
theorem createMatch_zero_goals_nulled (matchData : MatchInput)
    (store store' : Store) (m : MatchRec)
    (h : createMatch matchData store = .ok (store', m)) :
    (matchData.homeGoals = some 0 → m.homeGoals = none) ∧
    (matchData.awayGoals = some 0 → m.awayGoals = none) ∧
    m ∈ store'.matchList := by
  unfold createMatch at h
  cases hv : validateMatchData matchData store.teams with
  | some e => rw [hv] at h; exact absurd h (by simp)
  | none =>
      rw [hv] at h
      by_cases hd : store.matchList.any (fun mm => decide (mm.id = matchData.id))
      · rw [if_pos hd] at h; exact absurd h (by simp)
      · simp only [if_neg hd, Except.ok.injEq, Prod.mk.injEq] at h
        obtain ⟨rfl, rfl⟩ := h
        refine ⟨?_, ?_, ?_⟩
        · intro hz; simp [orNullInt, hz]
        · intro hz; simp [orNullInt, hz]
        · dsimp only
          exact (List.mergeSort_perm _ _).mem_iff.mpr (by simp)

/-- C10 witness: creating the fixture 0-1 result stores a null home
score. -/
theorem createMatch_zero_goals_nulled_witness :
    createMatch zeroInput store0 =
      .ok (⟨[teamA, teamB], [zeroOutMatch]⟩, zeroOutMatch) ∧
    zeroInput.homeGoals = some 0 ∧ zeroOutMatch.homeGoals = none := by
  have h : createMatch zeroInput store0 =
      .ok (⟨[teamA, teamB], [zeroOutMatch]⟩, zeroOutMatch) := by
    simp [createMatch, validateMatchData, store0, zeroInput, teamA, teamB,
      orNullInt, orNullStr, orDefaultStr, zeroOutMatch, List.mergeSort]
  exact ⟨h, rfl,
    (createMatch_zero_goals_nulled zeroInput store0 _ _ h).1 rfl⟩

/-! Step lemmas for the match engine operations. -/

/-- A successful home-goal step stores the non-negative parse of a
provided value and touches nothing else. -/
theorem applyHomeGoals_ok {v : JSVal} {m m' : MatchRec}
    (h : applyHomeGoals v m = .ok m') :
    m'.awayGoals = m.awayGoals ∧ m'.status = m.status ∧
    m'.bestPlayer = m.bestPlayer ∧ m'.id = m.id ∧
    (isProvided v = true →
      ∃ n, jsParseInt v = some n ∧ 0 ≤ n ∧ m'.homeGoals = some n) ∧
    (isProvided v = false → m' = m) := by
  unfold applyHomeGoals at h
  split at h
  · rename_i hip
    split at h
    · exact absurd h (by simp)
    · rename_i n hn
      split at h
      · exact absurd h (by simp)
      · rename_i hneg
        obtain rfl := Except.ok.inj h
        exact ⟨rfl, rfl, rfl, rfl,
          fun _ => ⟨n, hn, by omega, rfl⟩, fun hf => by rw [hip] at hf; cases hf⟩
  · rename_i hip
    obtain rfl := Except.ok.inj h
    exact ⟨rfl, rfl, rfl, rfl,
      fun ht => by simp [ht] at hip, fun _ => rfl⟩

/-- A successful away-goal step stores the non-negative parse of a
provided value and touches nothing else. -/
theorem applyAwayGoals_ok {v : JSVal} {m m' : MatchRec}
    (h : applyAwayGoals v m = .ok m') :
    m'.homeGoals = m.homeGoals ∧ m'.status = m.status ∧
    m'.bestPlayer = m.bestPlayer ∧ m'.id = m.id ∧
    (isProvided v = true →
      ∃ n, jsParseInt v = some n ∧ 0 ≤ n ∧ m'.awayGoals = some n) ∧
    (isProvided v = false → m' = m) := by
  unfold applyAwayGoals at h
  split at h
  · rename_i hip
    split at h
    · exact absurd h (by simp)
    · rename_i n hn
      split at h
      · exact absurd h (by simp)
      · rename_i hneg
        obtain rfl := Except.ok.inj h
        exact ⟨rfl, rfl, rfl, rfl,
          fun _ => ⟨n, hn, by omega, rfl⟩, fun hf => by rw [hip] at hf; cases hf⟩
  · rename_i hip
    obtain rfl := Except.ok.inj h
    exact ⟨rfl, rfl, rfl, rfl,
      fun ht => by simp [ht] at hip, fun _ => rfl⟩

/-- The played flag preserves goals, identity and best player, and
yields status `played` exactly when both goals are non-null (or the
status already was `played`). -/
theorem applyPlayedFlag_spec (m : MatchRec) :
    (applyPlayedFlag m).homeGoals = m.homeGoals ∧
    (applyPlayedFlag m).awayGoals = m.awayGoals ∧
    (applyPlayedFlag m).bestPlayer = m.bestPlayer ∧
    (applyPlayedFlag m).id = m.id ∧
    (m.homeGoals ≠ none → m.awayGoals ≠ none →
      (applyPlayedFlag m).status = .played) ∧
    ((m.homeGoals = none ∨ m.awayGoals = none) →
      (applyPlayedFlag m).status = m.status) := by
  unfold applyPlayedFlag
  by_cases hc : m.homeGoals ≠ none ∧ m.awayGoals ≠ none
  · rw [if_pos hc]
    refine ⟨rfl, rfl, rfl, rfl, fun _ _ => rfl, fun hd => ?_⟩
    rcases hd with hd | hd
    · exact absurd hd hc.1
    · exact absurd hd hc.2
  · rw [if_neg hc]
    exact ⟨rfl, rfl, rfl, rfl, fun hh ha => absurd ⟨hh, ha⟩ hc, fun _ => rfl⟩

/-- The best-player step only changes the best player. -/
theorem applyBestPlayer_spec (bp : Option String) (m : MatchRec) :
    (applyBestPlayer bp m).homeGoals = m.homeGoals ∧
    (applyBestPlayer bp m).awayGoals = m.awayGoals ∧
    (applyBestPlayer bp m).status = m.status ∧
    (applyBestPlayer bp m).postponementReason = m.postponementReason ∧
    (applyBestPlayer bp m).id = m.id := by
  unfold applyBestPlayer
  cases bp with
  | none => exact ⟨rfl, rfl, rfl, rfl, rfl⟩
  | some s =>
      by_cases hs : s ≠ ""
      · simp [if_pos hs]
      · simp [if_neg hs]

/-- A successful postponement step keeps the incoming status and
enforces the reason bookkeeping; from `played` it clears goals and
best player. -/
theorem applyPostponement_ok {status : Status} {reason : Option String}
    {oldStatus : Status} {m1 m2 : MatchRec}
    (h : applyPostponement status reason oldStatus m1 = .ok m2) :
    m2.status = m1.status ∧
    (status = .postponed →
      ∃ r, reason = some r ∧ r ≠ "" ∧ m2.postponementReason = some r) ∧
    (status ≠ .postponed → m2.postponementReason = none) ∧
    (status = .postponed → oldStatus = .played →
      m2.homeGoals = none ∧ m2.awayGoals = none ∧ m2.bestPlayer = none) := by
  unfold applyPostponement at h
  split at h
  · rename_i hp
    cases reason with
    | none => exact absurd h (by simp)
    | some r =>
        simp only [] at h
        split at h
        · exact absurd h (by simp)
        · rename_i hr
          split at h
          · rename_i hold
            obtain rfl := Except.ok.inj h
            exact ⟨rfl, fun _ => ⟨r, rfl, hr, rfl⟩,
              fun hnp => absurd hp hnp, fun _ _ => ⟨rfl, rfl, rfl⟩⟩
          · rename_i hold
            obtain rfl := Except.ok.inj h
            exact ⟨rfl, fun _ => ⟨r, rfl, hr, rfl⟩,
              fun hnp => absurd hp hnp, fun _ ho => absurd ho hold⟩
  · rename_i hp
    obtain rfl := Except.ok.inj h
    exact ⟨rfl, fun hs => absurd hs hp, fun _ => rfl,
      fun hs _ => absurd hs hp⟩

/-- Unfolded success shape of `updateResult`: the stored match is the
pipeline of the four steps, and the saved collection replaces the
found record. -/
theorem updateResult_ok {matchId : String} {result : ResultInput}
    {store store' : Store} {m : MatchRec}
    (h : updateResult matchId result store = .ok (store', m)) :
    ∃ m0 m1 m2,
      store.matchList.find? (fun mm => decide (mm.id = matchId)) = some m0 ∧
      applyHomeGoals result.homeGoals m0 = .ok m1 ∧
      applyAwayGoals result.awayGoals m1 = .ok m2 ∧
      m = applyBestPlayer result.bestPlayer (applyPlayedFlag m2) ∧
      store'.matchList = updateFirstBy (fun mm => decide (mm.id = matchId))
        (fun _ => m) store.matchList := by
  unfold updateResult at h
  split at h
  · exact absurd h (by simp)
  · split at h
    · exact absurd h (by simp)
    · rename_i m0 hfind
      split at h
      · exact absurd h (by simp)
      · rename_i m1 hhome
        split at h
        · exact absurd h (by simp)
        · rename_i m2 haway
          simp only [Except.ok.injEq, Prod.mk.injEq] at h
          obtain ⟨hst, rfl⟩ := h
          refine ⟨m0, m1, m2, hfind, hhome, haway, rfl, ?_⟩
          rw [← hst]
          by_cases hp : (applyBestPlayer result.bestPlayer
              (applyPlayedFlag m2)).status = Status.played
          · simp only [if_pos hp]
            unfold updateTeamStatistics
            split
            · rfl
            · split
              · rfl
              · rfl
          · simp only [if_neg hp]

/-- Unfolded success shape of `setMatchStatus`. -/
theorem setMatchStatus_ok {matchId : String} {status : Status}
    {reason : Option String} {store store' : Store} {m : MatchRec}
    {old : Status}
    (h : setMatchStatus matchId status reason store = .ok (store', m, old)) :
    ∃ m0,
      store.matchList.find? (fun mm => decide (mm.id = matchId)) = some m0 ∧
      old = m0.status ∧
      validateStatusTransition m0.status status = true ∧
      applyPostponement status reason m0.status
        { m0 with status := status } = .ok m ∧
      store'.matchList = updateFirstBy (fun mm => decide (mm.id = matchId))
        (fun _ => m) store.matchList ∧
      (m0.status = .played → status ≠ .played →
        store' = recalculateAllStatistics
          { store with
              matchList := updateFirstBy (fun mm => decide (mm.id = matchId))
                (fun _ => m) store.matchList }) := by
  unfold setMatchStatus at h
  split at h
  · exact absurd h (by simp)
  · split at h
    · exact absurd h (by simp)
    · rename_i m0 hfind
      dsimp only at h
      split at h
      · exact absurd h (by simp)
      · rename_i hvalid
        split at h
        · exact absurd h (by simp)
        · rename_i m2 hpost
          simp only [Except.ok.injEq, Prod.mk.injEq] at h
          obtain ⟨hst, rfl, rfl⟩ := h
          have hv : validateStatusTransition m0.status status = true := by
            revert hvalid
            cases validateStatusTransition m0.status status <;> simp
          refine ⟨m0, hfind, rfl, hv, hpost, ?_, ?_⟩
          · rw [← hst]
            by_cases hc1 : m0.status = Status.played ∧ status ≠ Status.played
            · simp only [if_pos hc1]
              unfold recalculateAllStatistics
              rfl
            · simp only [if_neg hc1]
              by_cases hc2 : status = Status.played ∧
                  m2.homeGoals ≠ none ∧ m2.awayGoals ≠ none
              · simp only [if_pos hc2]
                unfold updateTeamStatistics
                split
                · rfl
                · split
                  · rfl
                  · rfl
              · simp only [if_neg hc2]
          · intro hold hnp
            rw [← hst, if_pos ⟨hold, hnp⟩]

/-! ## Claim C3: the status transition relation -/

/-- C3: the transition relation accepted by `setMatchStatus` is
exactly {scheduled→played, scheduled→postponed, postponed→scheduled,
postponed→played, played→postponed}; any other pair is rejected with
the explicit invalid-transition error; and a successful
played→postponed call nulls the goals and best player and replaces
the team statistics with a full recalculation. -/
theorem status_transition_relation_exact :
    (∀ s t : Status, validateStatusTransition s t = true ↔
      (s, t) ∈ ([(.scheduled, .played), (.scheduled, .postponed),
        (.postponed, .scheduled), (.postponed, .played),
        (.played, .postponed)] : List (Status × Status))) ∧
    (∀ (matchId : String) (status : Status) (reason : Option String)
        (store : Store) (m0 : MatchRec), matchId ≠ "" →
      store.matchList.find? (fun mm => decide (mm.id = matchId)) = some m0 →
      validateStatusTransition m0.status status = false →
      setMatchStatus matchId status reason store =
        .error ("Invalid status transition from " ++ statusStr m0.status ++
          " to " ++ statusStr status)) ∧
    (∀ (matchId : String) (reason : Option String)
        (store store' : Store) (m : MatchRec) (old : Status),
      setMatchStatus matchId .postponed reason store = .ok (store', m, old) →
      old = .played →
      m.homeGoals = none ∧ m.awayGoals = none ∧ m.bestPlayer = none ∧
      store' = recalculateAllStatistics
        { store with
            matchList := updateFirstBy
              (fun mm => decide (mm.id = matchId)) (fun _ => m)
              store.matchList }) := by
  refine ⟨?_, ?_, ?_⟩
  · intro s t; cases s <;> cases t <;> decide
  · intro matchId status reason store m0 hmid hfind hinvalid
    simp [setMatchStatus, if_neg hmid, hfind, hinvalid]
  · intro matchId reason store store' m old h hold
    obtain ⟨m0, hfind, holdst, hv, hpost, hsaved, hrecalc⟩ :=
      setMatchStatus_ok h
    have hm0 : m0.status = Status.played := by rw [← holdst]; exact hold
    obtain ⟨hst, hrsn, _, hclear⟩ := applyPostponement_ok hpost
    obtain ⟨hhg, hag, hbp⟩ := hclear rfl hm0
    exact ⟨hhg, hag, hbp, hrecalc hm0 (by decide)⟩

/-- C3 witness: the transition table instance, the rejected
played→scheduled call, and the successful played→postponed call on
the fixtures. -/
theorem status_transition_relation_exact_witness :
    (validateStatusTransition .played .scheduled = true ↔
      ((.played, .scheduled) : Status × Status) ∈
        ([(.scheduled, .played), (.scheduled, .postponed),
          (.postponed, .scheduled), (.postponed, .played),
          (.played, .postponed)] : List (Status × Status))) ∧
    setMatchStatus "m1" .scheduled none storePlayed =
      .error ("Invalid status transition from " ++ statusStr .played ++
        " to " ++ statusStr .scheduled) ∧
    (setMatchStatus "m1" .postponed (some "rain") storePlayed =
      .ok (⟨[teamA, teamB], [postponedOut]⟩, postponedOut, .played)) ∧
    (postponedOut.homeGoals = none ∧ postponedOut.awayGoals = none ∧
      postponedOut.bestPlayer = none ∧
      (⟨[teamA, teamB], [postponedOut]⟩ : Store) = recalculateAllStatistics
        { storePlayed with
            matchList := updateFirstBy
              (fun mm => decide (mm.id = "m1")) (fun _ => postponedOut)
              storePlayed.matchList }) := by
  have h2 : setMatchStatus "m1" .postponed (some "rain") storePlayed =
      .ok (⟨[teamA, teamB], [postponedOut]⟩, postponedOut, .played) := by
    decide
  refine ⟨status_transition_relation_exact.1 .played .scheduled, ?_, h2, ?_⟩
  · exact status_transition_relation_exact.2.1 "m1" .scheduled none
      storePlayed playedMatch (by decide) (by decide) (by decide)
  · exact status_transition_relation_exact.2.2 "m1" (some "rain")
      storePlayed _ _ _ h2 rfl

/-! ## Claim C7: the persisted-record invariant -/

/-- C7 counterexample: `createMatch` accepts an input carrying only a
home score and persists a record with `homeGoals = 2`,
`awayGoals = null` and status `scheduled`, violating both the
both-null-or-both-non-null invariant and non-null-implies-played. -/
theorem match_invariant_counterexample :
    createMatch halfInput store0 =
      .ok (⟨[teamA, teamB], [halfOutMatch]⟩, halfOutMatch) ∧
    halfOutMatch.homeGoals = some 2 ∧ halfOutMatch.awayGoals = none ∧
    halfOutMatch.status = Status.scheduled := by
  refine ⟨?_, rfl, rfl, rfl⟩
  simp [createMatch, validateMatchData, store0, halfInput, teamA, teamB,
    orNullInt, orNullStr, orDefaultStr, halfOutMatch, List.mergeSort]

/-- C7 (amended): the full data-model invariant is not established by
every operation (`createMatch` can persist a half-filled result); what
the engine does guarantee is: after a successful `updateResult` the
updated record is `played` whenever both its goals are non-null; after
a successful `setMatchStatus` the updated record has a postponement
reason exactly when it is postponed; and a successful played→postponed
call clears goals and best player. The updated record is in the saved
collection. -/
theorem match_record_guarantees :
    (∀ (matchId : String) (result : ResultInput) (store store' : Store)
        (m : MatchRec),
      updateResult matchId result store = .ok (store', m) →
      (m.homeGoals ≠ none → m.awayGoals ≠ none → m.status = .played) ∧
      m ∈ store'.matchList) ∧
    (∀ (matchId : String) (status : Status) (reason : Option String)
        (store store' : Store) (m : MatchRec) (old : Status),
      setMatchStatus matchId status reason store = .ok (store', m, old) →
      (m.status = .postponed ↔ m.postponementReason ≠ none) ∧
      m ∈ store'.matchList) ∧
    (∀ (matchId : String) (reason : Option String) (store store' : Store)
        (m : MatchRec) (old : Status),
      setMatchStatus matchId .postponed reason store = .ok (store', m, old) →
      old = .played →
      m.homeGoals = none ∧ m.awayGoals = none ∧ m.bestPlayer = none) := by
  refine ⟨?_, ?_, ?_⟩
  · intro matchId result store store' m h
    obtain ⟨m0, m1, m2, hfind, hhome, haway, hm, hsaved⟩ := updateResult_ok h
    constructor
    · intro hh ha
      obtain ⟨hbp1, hbp2, hbp3, _, _⟩ :=
        applyBestPlayer_spec result.bestPlayer (applyPlayedFlag m2)
      rw [hm] at hh ha ⊢
      rw [hbp3]
      rw [hbp1] at hh
      rw [hbp2] at ha
      obtain ⟨hpf1, hpf2, _, _, hpf5, _⟩ := applyPlayedFlag_spec m2
      rw [hpf1] at hh
      rw [hpf2] at ha
      exact hpf5 hh ha
    · rw [hsaved]
      exact mem_updateFirstBy_const (exists_of_find?_eq_some hfind)
  · intro matchId status reason store store' m old h
    obtain ⟨m0, hfind, holdst, hv, hpost, hsaved, _⟩ := setMatchStatus_ok h
    obtain ⟨hst, hrsn, hnrsn, _⟩ := applyPostponement_ok hpost
    have hms : m.status = status := hst
    constructor
    · by_cases hsp : status = Status.postponed
      · obtain ⟨r, _, _, hpr⟩ := hrsn hsp
        constructor
        · intro _; rw [hpr]; simp
        · intro _; rw [hms, hsp]
      · have hpr := hnrsn hsp
        constructor
        · intro hcontra; rw [hms] at hcontra; exact absurd hcontra hsp
        · intro hcontra; rw [hpr] at hcontra; exact absurd rfl hcontra
    · rw [hsaved]
      exact mem_updateFirstBy_const (exists_of_find?_eq_some hfind)
  · intro matchId reason store store' m old h hold
    obtain ⟨m0, hfind, holdst, hv, hpost, _, _⟩ := setMatchStatus_ok h
    have hm0 : m0.status = Status.played := by rw [← holdst]; exact hold
    obtain ⟨_, _, _, hclear⟩ := applyPostponement_ok hpost
    exact hclear rfl hm0

/-- C7 witness: the guarantees applied to the fixture 2-1 result entry
and the fixture postponement of a played match. -/
theorem match_record_guarantees_witness :
    (updateResult "m1" ⟨.jnum 2, .jnum 1, none⟩ storeSched =
      .ok (⟨[teamA21, teamB12], [playedMatch]⟩, playedMatch)) ∧
    ((playedMatch.homeGoals ≠ none → playedMatch.awayGoals ≠ none →
        playedMatch.status = .played) ∧
      playedMatch ∈ (Store.mk [teamA21, teamB12] [playedMatch]).matchList) ∧
    ((postponedOut.status = .postponed ↔
        postponedOut.postponementReason ≠ none) ∧
      postponedOut ∈ (Store.mk [teamA, teamB] [postponedOut]).matchList) ∧
    (postponedOut.homeGoals = none ∧ postponedOut.awayGoals = none ∧
      postponedOut.bestPlayer = none) := by
  have h1 : updateResult "m1" ⟨.jnum 2, .jnum 1, none⟩ storeSched =
      .ok (⟨[teamA21, teamB12], [playedMatch]⟩, playedMatch) := by decide
  have h2 : setMatchStatus "m1" .postponed (some "rain") storePlayed =
      .ok (⟨[teamA, teamB], [postponedOut]⟩, postponedOut, .played) := by
    decide
  exact ⟨h1, match_record_guarantees.1 _ _ _ _ _ h1,
    match_record_guarantees.2.1 _ _ _ _ _ _ _ h2,
    match_record_guarantees.2.2 _ _ _ _ _ _ h2 rfl⟩

/-! ## Claim C8: goal validation -/

/-- C8 counterexample: the numeric string "3.7" is accepted by
`updateResult` and silently truncated to 3 by `parseInt`, and the
digit-prefixed junk "5abc" is accepted as 5 — so validation neither
accepts only integers nor avoids coercion. -/
theorem goal_validation_counterexample :
    parseIntStr "3.7" = some 3 ∧
    updateResult "m1" ⟨.jstr "3.7", .jnum 1, none⟩ storeSched =
      .ok (⟨[teamA31, teamB13], [coercedOutMatch]⟩, coercedOutMatch) ∧
    coercedOutMatch.homeGoals = some 3 ∧
    parseIntStr "5abc" = some 5 := by
  decide

/-- C8 (amended): a provided goal value - home or away - whose
`parseInt` image is `NaN` is rejected, a negative parse is rejected
with the same field-specific message, and an accepted call stores
exactly the non-negative `parseInt` image of each provided input -
which truncates non-integer numeric strings, so inputs such as "3.7"
are silently coerced to 3 rather than rejected. -/
theorem goal_validation_truncates :
    (∀ (matchId : String) (res : ResultInput) (store : Store)
        (m0 : MatchRec), matchId ≠ "" →
      store.matchList.find? (fun mm => decide (mm.id = matchId)) = some m0 →
      isProvided res.homeGoals = true → jsParseInt res.homeGoals = none →
      updateResult matchId res store = .error "Invalid home team goals") ∧
    (∀ (matchId : String) (res : ResultInput) (store : Store)
        (m0 : MatchRec) (n : Int), matchId ≠ "" →
      store.matchList.find? (fun mm => decide (mm.id = matchId)) = some m0 →
      isProvided res.homeGoals = true → jsParseInt res.homeGoals = some n →
      n < 0 →
      updateResult matchId res store = .error "Invalid home team goals") ∧
    (∀ (matchId : String) (res : ResultInput) (store store' : Store)
        (m : MatchRec),
      updateResult matchId res store = .ok (store', m) →
      isProvided res.homeGoals = true →
      ∃ n, jsParseInt res.homeGoals = some n ∧ 0 ≤ n ∧
        m.homeGoals = some n) ∧
    (∀ (matchId : String) (res : ResultInput) (store : Store)
        (m0 : MatchRec), matchId ≠ "" →
      store.matchList.find? (fun mm => decide (mm.id = matchId)) = some m0 →
      (isProvided res.homeGoals = false ∨
        ∃ k, jsParseInt res.homeGoals = some k ∧ 0 ≤ k) →
      isProvided res.awayGoals = true → jsParseInt res.awayGoals = none →
      updateResult matchId res store = .error "Invalid away team goals") ∧
    (∀ (matchId : String) (res : ResultInput) (store : Store)
        (m0 : MatchRec) (n : Int), matchId ≠ "" →
      store.matchList.find? (fun mm => decide (mm.id = matchId)) = some m0 →
      (isProvided res.homeGoals = false ∨
        ∃ k, jsParseInt res.homeGoals = some k ∧ 0 ≤ k) →
      isProvided res.awayGoals = true → jsParseInt res.awayGoals = some n →
      n < 0 →
      updateResult matchId res store = .error "Invalid away team goals") ∧
    (∀ (matchId : String) (res : ResultInput) (store store' : Store)
        (m : MatchRec),
      updateResult matchId res store = .ok (store', m) →
      isProvided res.awayGoals = true →
      ∃ n, jsParseInt res.awayGoals = some n ∧ 0 ≤ n ∧
        m.awayGoals = some n) := by
  refine ⟨?_, ?_, ?_, ?_, ?_, ?_⟩
  · intro matchId res store m0 hmid hfind hip hnan
    simp [updateResult, if_neg hmid, hfind, applyHomeGoals, hip, hnan]
  · intro matchId res store m0 n hmid hfind hip hn hneg
    simp [updateResult, if_neg hmid, hfind, applyHomeGoals, hip, hn, hneg]
  · intro matchId res store store' m h hip
    obtain ⟨m0, m1, m2, hfind, hhome, haway, hm, _⟩ := updateResult_ok h
    obtain ⟨_, _, _, _, hprov, _⟩ := applyHomeGoals_ok hhome
    obtain ⟨n, hparse, hnn, hm1⟩ := hprov hip
    refine ⟨n, hparse, hnn, ?_⟩
    obtain ⟨haw1, _, _, _, _, _⟩ := applyAwayGoals_ok haway
    obtain ⟨hbp1, _, _, _, _⟩ :=
      applyBestPlayer_spec res.bestPlayer (applyPlayedFlag m2)
    obtain ⟨hpf1, _, _, _, _, _⟩ := applyPlayedFlag_spec m2
    rw [hm, hbp1, hpf1, haw1, hm1]
  · intro matchId res store m0 hmid hfind hhome hipA hnanA
    rcases hhome with hnp | ⟨k, hk, hknn⟩
    · simp [updateResult, if_neg hmid, hfind, applyHomeGoals, hnp,
        applyAwayGoals, hipA, hnanA]
    · have hko : ¬ (k < 0) := by omega
      by_cases hip0 : isProvided res.homeGoals = true
      · simp [updateResult, if_neg hmid, hfind, applyHomeGoals, hip0, hk,
          hko, applyAwayGoals, hipA, hnanA]
      · simp [updateResult, if_neg hmid, hfind, applyHomeGoals, hip0,
          applyAwayGoals, hipA, hnanA]
  · intro matchId res store m0 n hmid hfind hhome hipA hn hneg
    rcases hhome with hnp | ⟨k, hk, hknn⟩
    · simp [updateResult, if_neg hmid, hfind, applyHomeGoals, hnp,
        applyAwayGoals, hipA, hn, hneg]
    · have hko : ¬ (k < 0) := by omega
      by_cases hip0 : isProvided res.homeGoals = true
      · simp [updateResult, if_neg hmid, hfind, applyHomeGoals, hip0, hk,
          hko, applyAwayGoals, hipA, hn, hneg]
      · simp [updateResult, if_neg hmid, hfind, applyHomeGoals, hip0,
          applyAwayGoals, hipA, hn, hneg]
  · intro matchId res store store' m h hip
    obtain ⟨m0, m1, m2, hfind, hhome, haway, hm, _⟩ := updateResult_ok h
    obtain ⟨_, _, _, _, hprov, _⟩ := applyAwayGoals_ok haway
    obtain ⟨n, hparse, hnn, hm2⟩ := hprov hip
    refine ⟨n, hparse, hnn, ?_⟩
    obtain ⟨_, hbp2, _, _, _⟩ :=
      applyBestPlayer_spec res.bestPlayer (applyPlayedFlag m2)
    obtain ⟨_, hpf2, _, _, _, _⟩ := applyPlayedFlag_spec m2
    rw [hm, hbp2, hpf2, hm2]

/-- C8 witness: the rejection of "abc" and the accepted truncation of
"3.7" on the fixture store. -/
theorem goal_validation_truncates_witness :
    updateResult "m1" ⟨.jstr "abc", .jnum 1, none⟩ storeSched =
      .error "Invalid home team goals" ∧
    (∃ n, jsParseInt (.jstr "3.7") = some n ∧ 0 ≤ n ∧
      coercedOutMatch.homeGoals = some n) ∧
    updateResult "m1" ⟨.jnum 1, .jstr "abc", none⟩ storeSched =
      .error "Invalid away team goals" ∧
    updateResult "m1" ⟨.jnum 1, .jnum (-2), none⟩ storeSched =
      .error "Invalid away team goals" ∧
    (∃ n, jsParseInt (.jnum 1) = some n ∧ 0 ≤ n ∧
      coercedOutMatch.awayGoals = some n) := by
  have h : updateResult "m1" ⟨.jstr "3.7", .jnum 1, none⟩ storeSched =
      .ok (⟨[teamA31, teamB13], [coercedOutMatch]⟩, coercedOutMatch) := by
    decide
  exact ⟨goal_validation_truncates.1 "m1" _ storeSched schedMatch
      (by decide) (by decide) rfl (by decide),
    goal_validation_truncates.2.2.1 "m1" _ storeSched _ _ h rfl,
    goal_validation_truncates.2.2.2.1 "m1" _ storeSched schedMatch
      (by decide) (by decide) (Or.inr ⟨1, rfl, by decide⟩) rfl (by decide),
    goal_validation_truncates.2.2.2.2.1 "m1" _ storeSched schedMatch (-2)
      (by decide) (by decide) (Or.inr ⟨1, rfl, by decide⟩) rfl rfl
      (by decide),
    goal_validation_truncates.2.2.2.2.2 "m1" _ storeSched _ _ h rfl⟩

/-- Bracket progression never touches the semifinal entries. -/
theorem updateBracketProgression_semi (b : Bracket) :
    (updateBracketProgression b).semi1 = b.semi1 ∧
    (updateBracketProgression b).semi2 = b.semi2 := by
  by_cases hw : (b.semi1.winner.isSome && b.semi2.winner.isSome) = true <;>
    by_cases hl : (b.semi1.loser.isSome && b.semi2.loser.isSome) = true <;>
      simp [updateBracketProgression, hw, hl]

/-! ## Claim C2: bracket generation and progression -/

/-- C2: bracket generation fails on fewer than 4 standings rows and
otherwise seeds semifinal A with ranks 1 and 4 and semifinal B with
ranks 2 and 3, creating the final and third-place matches pending with
no teams; progression populates the final from the two winners and the
third-place match from the two losers with status scheduled, and is
idempotent. -/
theorem bracket_generation_and_progression :
    (∀ (standings : List Row) (nm : String → String),
      standings.length < 4 → generatePlayoffBracket standings nm = none) ∧
    (∀ (nm : String → String) (t1 t2 t3 t4 : Row) (rest : List Row),
      ∃ b, generatePlayoffBracket (t1 :: t2 :: t3 :: t4 :: rest) nm = some b ∧
        b.semi1.homeTeam = ⟨t1.teamId, nm t1.teamId, 1, t1⟩ ∧
        b.semi1.awayTeam = ⟨t4.teamId, nm t4.teamId, 4, t4⟩ ∧
        b.semi2.homeTeam = ⟨t2.teamId, nm t2.teamId, 2, t2⟩ ∧
        b.semi2.awayTeam = ⟨t3.teamId, nm t3.teamId, 3, t3⟩ ∧
        b.semi1.status = "scheduled" ∧ b.semi2.status = "scheduled" ∧
        b.final.status = "pending" ∧ b.final.homeTeam = none ∧
        b.final.awayTeam = none ∧ b.thirdPlace.status = "pending" ∧
        b.thirdPlace.homeTeam = none ∧ b.thirdPlace.awayTeam = none) ∧
    (∀ (b : Bracket) (w1 w2 : SeedTeam),
      b.semi1.winner = some w1 → b.semi2.winner = some w2 →
      (updateBracketProgression b).final.homeTeam = some w1 ∧
      (updateBracketProgression b).final.awayTeam = some w2 ∧
      (updateBracketProgression b).final.status = "scheduled") ∧
    (∀ (b : Bracket) (l1 l2 : SeedTeam),
      b.semi1.loser = some l1 → b.semi2.loser = some l2 →
      (updateBracketProgression b).thirdPlace.homeTeam = some l1 ∧
      (updateBracketProgression b).thirdPlace.awayTeam = some l2 ∧
      (updateBracketProgression b).thirdPlace.status = "scheduled") ∧
    (∀ b : Bracket, updateBracketProgression (updateBracketProgression b) =
      updateBracketProgression b) := by
  refine ⟨?_, ?_, ?_, ?_, ?_⟩
  · intro standings nm h
    rcases standings with _ | ⟨a, _ | ⟨b, _ | ⟨c, _ | ⟨d, rest⟩⟩⟩⟩
    · rfl
    · rfl
    · rfl
    · rfl
    · exfalso; simp [List.length] at h; omega
  · intro nm t1 t2 t3 t4 rest
    exact ⟨_, rfl, rfl, rfl, rfl, rfl, rfl, rfl, rfl, rfl, rfl, rfl,
      rfl, rfl⟩
  · intro b w1 w2 h1 h2
    by_cases hl : (b.semi1.loser.isSome && b.semi2.loser.isSome) = true <;>
      simp [updateBracketProgression, h1, h2, hl]
  · intro b l1 l2 h1 h2
    by_cases hw : (b.semi1.winner.isSome && b.semi2.winner.isSome) = true <;>
      simp [updateBracketProgression, h1, h2, hw]
  · intro b
    by_cases hw : (b.semi1.winner.isSome && b.semi2.winner.isSome) = true <;>
      by_cases hl : (b.semi1.loser.isSome && b.semi2.loser.isSome) = true <;>
        simp [updateBracketProgression, hw, hl]

/-- C2 witness: generation fails on an empty standings list, the four
fixture rows seed as 1v4 and 2v3, and progression on the fixture
bracket with both semifinals resolved fills the final and the
third-place match. -/
theorem bracket_generation_and_progression_witness :
    generatePlayoffBracket [] (fun s => s) = none ∧
    (∃ b, generatePlayoffBracket
        [mkRow "T1" "T1", mkRow "T2" "T2", mkRow "T3" "T3", mkRow "T4" "T4"]
        (fun s => s) = some b ∧
      b.semi1.homeTeam = ⟨"T1", "T1", 1, mkRow "T1" "T1"⟩ ∧
      b.semi1.awayTeam = ⟨"T4", "T4", 4, mkRow "T4" "T4"⟩ ∧
      b.semi2.homeTeam = ⟨"T2", "T2", 2, mkRow "T2" "T2"⟩ ∧
      b.semi2.awayTeam = ⟨"T3", "T3", 3, mkRow "T3" "T3"⟩ ∧
      b.semi1.status = "scheduled" ∧ b.semi2.status = "scheduled" ∧
      b.final.status = "pending" ∧ b.final.homeTeam = none ∧
      b.final.awayTeam = none ∧ b.thirdPlace.status = "pending" ∧
      b.thirdPlace.homeTeam = none ∧ b.thirdPlace.awayTeam = none) ∧
    ((updateBracketProgression bracketCompleted).final.homeTeam =
        some seed1 ∧
      (updateBracketProgression bracketCompleted).final.awayTeam =
        some seed2 ∧
      (updateBracketProgression bracketCompleted).final.status =
        "scheduled") ∧
    ((updateBracketProgression bracketCompleted).thirdPlace.homeTeam =
        some seed4 ∧
      (updateBracketProgression bracketCompleted).thirdPlace.awayTeam =
        some seed3 ∧
      (updateBracketProgression bracketCompleted).thirdPlace.status =
        "scheduled") ∧
    updateBracketProgression (updateBracketProgression bracketCompleted) =
      updateBracketProgression bracketCompleted := by
  have h1 := bracket_generation_and_progression.1 [] (fun s => s)
    (by decide)
  have h2 := bracket_generation_and_progression.2.1 (fun s => s)
    (mkRow "T1" "T1") (mkRow "T2" "T2") (mkRow "T3" "T3")
    (mkRow "T4" "T4") []
  have h3 := bracket_generation_and_progression.2.2.1 bracketCompleted
    seed1 seed2 rfl rfl
  have h4 := bracket_generation_and_progression.2.2.2.1 bracketCompleted
    seed4 seed3 rfl rfl
  have h5 := bracket_generation_and_progression.2.2.2.2 bracketCompleted
  exact ⟨h1, h2, h3, h4, h5⟩

/-! ## Claim C4: draw-without-penalty handling -/

/-- C4 counterexample: resolving the fixture semifinal 2-2 with no
penalty outcome fails with the draw error, but the in-memory bracket
is not left unchanged — the goals and the completed status were
already written when the error was raised (only the persisted
snapshot is unchanged, because the save is skipped). -/
theorem draw_mutation_counterexample :
    semiErrMsgOf (updateSemifinalResult "semi-1" 2 2 none bracket0) =
      some "Draw result requires penalty shootout result" ∧
    semiErrBracketOf (updateSemifinalResult "semi-1" 2 2 none bracket0) ≠
      some bracket0 := by
  decide

/-- C4 (amended): a tied semifinal or final with no penalty outcome
fails with the specific draw error and never assigns a winner, and the
persisted snapshot is unchanged because the save step is skipped — but
the in-memory bracket retains the written goals and completed status;
the identical call with a penalty outcome succeeds - on either
semifinal, assigning winner and loser according to `penalty.winner`,
and on the final, assigning champion and runner-up accordingly. -/
theorem draw_without_penalty_rejection :
    (∀ (b : Bracket) (matchId : String) (g : Int),
      b.semi1.id = matchId →
      updateSemifinalResult matchId g g none b =
        .err "Draw result requires penalty shootout result"
          { b with semi1 := { b.semi1 with
              homeGoals := some g
              awayGoals := some g
              status := "completed" } }) ∧
    (∀ (b : Bracket) (matchId : String) (g : Int),
      b.semi1.id ≠ matchId → b.semi2.id = matchId →
      updateSemifinalResult matchId g g none b =
        .err "Draw result requires penalty shootout result"
          { b with semi2 := { b.semi2 with
              homeGoals := some g
              awayGoals := some g
              status := "completed" } }) ∧
    (∀ (b : Bracket) (g : Int) (t : SeedTeam), b.final.homeTeam = some t →
      updateFinalResult g g none b =
        .err "Final draw requires penalty shootout result"
          { b with final := { b.final with
              homeGoals := some g
              awayGoals := some g
              status := "completed" } }) ∧
    (∀ (b : Bracket) (matchId : String) (g : Int) (p : Penalty),
      b.semi1.id = matchId → p.winner = "home" →
      ∃ b' s', updateSemifinalResult matchId g g (some p) b = .ok b' s' ∧
        s'.winner = some b.semi1.homeTeam ∧
        s'.loser = some b.semi1.awayTeam) ∧
    (∀ (b : Bracket) (matchId : String) (g : Int) (p : Penalty),
      b.semi1.id = matchId → p.winner = "away" →
      ∃ b' s', updateSemifinalResult matchId g g (some p) b = .ok b' s' ∧
        s'.winner = some b.semi1.awayTeam ∧
        s'.loser = some b.semi1.homeTeam) ∧
    (∀ (b : Bracket) (matchId : String) (g : Int) (p : Penalty),
      b.semi1.id ≠ matchId → b.semi2.id = matchId → p.winner = "home" →
      ∃ b' s', updateSemifinalResult matchId g g (some p) b = .ok b' s' ∧
        s'.winner = some b.semi2.homeTeam ∧
        s'.loser = some b.semi2.awayTeam) ∧
    (∀ (b : Bracket) (matchId : String) (g : Int) (p : Penalty),
      b.semi1.id ≠ matchId → b.semi2.id = matchId → p.winner = "away" →
      ∃ b' s', updateSemifinalResult matchId g g (some p) b = .ok b' s' ∧
        s'.winner = some b.semi2.awayTeam ∧
        s'.loser = some b.semi2.homeTeam) ∧
    (∀ (b : Bracket) (g : Int) (t : SeedTeam) (p : Penalty),
      b.final.homeTeam = some t → p.winner = "home" →
      ∃ b' f', updateFinalResult g g (some p) b = .ok b' f' ∧
        f'.champion = some t ∧ f'.runnerUp = b.final.awayTeam ∧
        b'.metadata.tournamentPhase = "completed") ∧
    (∀ (b : Bracket) (g : Int) (t : SeedTeam) (p : Penalty),
      b.final.homeTeam = some t → p.winner = "away" →
      ∃ b' f', updateFinalResult g g (some p) b = .ok b' f' ∧
        f'.champion = b.final.awayTeam ∧ f'.runnerUp = some t ∧
        b'.metadata.tournamentPhase = "completed") := by
  refine ⟨?_, ?_, ?_, ?_, ?_, ?_, ?_, ?_, ?_⟩
  · intro b matchId g h1
    unfold updateSemifinalResult
    rw [if_pos h1]
    unfold semiStep
    rw [if_neg (lt_irrefl g), if_neg (lt_irrefl g)]
  · intro b matchId g h1 h2
    unfold updateSemifinalResult
    rw [if_neg h1, if_pos h2]
    unfold semiStep
    rw [if_neg (lt_irrefl g), if_neg (lt_irrefl g)]
  · intro b g t hht
    unfold updateFinalResult
    have hn : ¬ (b.final.homeTeam.isNone = true) := by rw [hht]; simp
    rw [if_neg hn, if_neg (lt_irrefl g), if_neg (lt_irrefl g)]
  · intro b matchId g p h1 hp
    unfold updateSemifinalResult
    rw [if_pos h1]
    unfold semiStep
    rw [if_neg (lt_irrefl g), if_neg (lt_irrefl g)]
    dsimp only
    rw [if_pos hp]
    exact ⟨_, _, rfl, rfl, rfl⟩
  · intro b matchId g p h1 hp
    unfold updateSemifinalResult
    rw [if_pos h1]
    unfold semiStep
    rw [if_neg (lt_irrefl g), if_neg (lt_irrefl g)]
    dsimp only
    rw [if_neg (by rw [hp]; decide)]
    exact ⟨_, _, rfl, rfl, rfl⟩
  · intro b matchId g p h1 h2 hp
    unfold updateSemifinalResult
    rw [if_neg h1, if_pos h2]
    unfold semiStep
    rw [if_neg (lt_irrefl g), if_neg (lt_irrefl g)]
    dsimp only
    rw [if_pos hp]
    exact ⟨_, _, rfl, rfl, rfl⟩
  · intro b matchId g p h1 h2 hp
    unfold updateSemifinalResult
    rw [if_neg h1, if_pos h2]
    unfold semiStep
    rw [if_neg (lt_irrefl g), if_neg (lt_irrefl g)]
    dsimp only
    rw [if_neg (by rw [hp]; decide)]
    exact ⟨_, _, rfl, rfl, rfl⟩
  · intro b g t p hht hp
    unfold updateFinalResult
    have hn : ¬ (b.final.homeTeam.isNone = true) := by rw [hht]; simp
    rw [if_neg hn, if_neg (lt_irrefl g), if_neg (lt_irrefl g)]
    dsimp only
    rw [if_pos hp]
    exact ⟨_, _, rfl, by rw [hht], rfl, rfl⟩
  · intro b g t p hht hp
    unfold updateFinalResult
    have hn : ¬ (b.final.homeTeam.isNone = true) := by rw [hht]; simp
    rw [if_neg hn, if_neg (lt_irrefl g), if_neg (lt_irrefl g)]
    dsimp only
    rw [if_neg (by rw [hp]; decide)]
    exact ⟨_, _, rfl, rfl, by rw [hht], rfl⟩

/-- C4 witness: the amended behaviour on the fixture bracket — the
2-2 call without penalties errs with the mutated in-memory bracket,
and the same call with a home penalty win resolves seed 1 over
seed 4. -/
theorem draw_without_penalty_rejection_witness :
    updateSemifinalResult "semi-1" 2 2 none bracket0 =
      .err "Draw result requires penalty shootout result"
        { bracket0 with semi1 := { bracket0.semi1 with
            homeGoals := some 2
            awayGoals := some 2
            status := "completed" } } ∧
    (∃ b' s', updateSemifinalResult "semi-1" 2 2 (some ⟨"home"⟩) bracket0 =
        .ok b' s' ∧
      s'.winner = some bracket0.semi1.homeTeam ∧
      s'.loser = some bracket0.semi1.awayTeam) ∧
    (∃ b' s', updateSemifinalResult "semi-2" 2 2 (some ⟨"away"⟩) bracket0 =
        .ok b' s' ∧
      s'.winner = some bracket0.semi2.awayTeam ∧
      s'.loser = some bracket0.semi2.homeTeam) ∧
    (∃ b' f', updateFinalResult 2 2 (some ⟨"home"⟩) bracketCompleted =
        .ok b' f' ∧
      f'.champion = some seed1 ∧
      f'.runnerUp = bracketCompleted.final.awayTeam ∧
      b'.metadata.tournamentPhase = "completed") :=
  ⟨draw_without_penalty_rejection.1 bracket0 "semi-1" 2 rfl,
    draw_without_penalty_rejection.2.2.2.1 bracket0 "semi-1" 2
      ⟨"home"⟩ rfl rfl,
    draw_without_penalty_rejection.2.2.2.2.2.2.1 bracket0 "semi-2" 2
      ⟨"away"⟩ (by decide) rfl rfl,
    draw_without_penalty_rejection.2.2.2.2.2.2.2.1 bracketCompleted 2
      seed1 ⟨"home"⟩ rfl rfl⟩

/-! ## Claim C9: terminality of resolutions -/

/-- C9 counterexample: the playoff engine re-resolves an already
resolved semifinal (flipping the recorded winner from seed 1 to
seed 4) and re-resolves the final of a completed tournament (flipping
the champion from seed 1 to seed 2) — recording a result is not
terminal and the completed bracket is not immutable. -/
theorem terminality_counterexample :
    bracketResolved.semi1.winner = some seed1 ∧
    bracketResolved.semi1.status = "completed" ∧
    (semiResultOf (updateSemifinalResult "semi-1" 0 1 none bracketResolved)).map
      Semifinal.winner = some (some seed4) ∧
    bracketCompleted.metadata.tournamentPhase = "completed" ∧
    bracketCompleted.final.champion = some seed1 ∧
    (finalResultOf (updateFinalResult 0 1 none bracketCompleted)).map
      FinalMatch.champion = some (some seed2) ∧
    seed4 ≠ seed1 ∧ seed2 ≠ seed1 := by
  decide

/-- C9 (amended): resolutions are not guarded by prior state —
`updateSemifinalResult` succeeds on any bracket whose first or second
semifinal id matches, whatever its status or recorded winner and
whatever the scoreline (any decisive score, or a draw with a penalty
outcome), overwriting goals, status and the winner/loser pair;
`updateFinalResult` succeeds whenever the final's home team is
assigned, even when the tournament phase is already completed,
overwriting champion and runner-up. Terminality is a caller-side
convention, not enforced. -/
theorem resolution_overwrites :
    (∀ (b : Bracket) (matchId : String) (hg ag : Int)
        (pen : Option Penalty),
      b.semi1.id = matchId → ¬ (hg = ag ∧ pen = none) →
      ∃ b' s', updateSemifinalResult matchId hg ag pen b = .ok b' s' ∧
        s'.homeGoals = some hg ∧ s'.awayGoals = some ag ∧
        s'.status = "completed" ∧
        (ag < hg → s'.winner = some b.semi1.homeTeam ∧
          s'.loser = some b.semi1.awayTeam) ∧
        (hg < ag → s'.winner = some b.semi1.awayTeam ∧
          s'.loser = some b.semi1.homeTeam) ∧
        (∀ p, hg = ag → pen = some p →
          (p.winner = "home" → s'.winner = some b.semi1.homeTeam ∧
            s'.loser = some b.semi1.awayTeam) ∧
          (p.winner ≠ "home" → s'.winner = some b.semi1.awayTeam ∧
            s'.loser = some b.semi1.homeTeam)) ∧
        b'.semi1 = s') ∧
    (∀ (b : Bracket) (matchId : String) (hg ag : Int)
        (pen : Option Penalty),
      b.semi1.id ≠ matchId → b.semi2.id = matchId →
      ¬ (hg = ag ∧ pen = none) →
      ∃ b' s', updateSemifinalResult matchId hg ag pen b = .ok b' s' ∧
        s'.homeGoals = some hg ∧ s'.awayGoals = some ag ∧
        s'.status = "completed" ∧
        (ag < hg → s'.winner = some b.semi2.homeTeam ∧
          s'.loser = some b.semi2.awayTeam) ∧
        (hg < ag → s'.winner = some b.semi2.awayTeam ∧
          s'.loser = some b.semi2.homeTeam) ∧
        (∀ p, hg = ag → pen = some p →
          (p.winner = "home" → s'.winner = some b.semi2.homeTeam ∧
            s'.loser = some b.semi2.awayTeam) ∧
          (p.winner ≠ "home" → s'.winner = some b.semi2.awayTeam ∧
            s'.loser = some b.semi2.homeTeam)) ∧
        b'.semi2 = s') ∧
    (∀ (b : Bracket) (hg ag : Int) (t : SeedTeam),
      b.final.homeTeam = some t → ag < hg →
      ∃ b' f', updateFinalResult hg ag none b = .ok b' f' ∧
        f'.champion = some t ∧
        b'.metadata.tournamentPhase = "completed" ∧
        b'.final = f') := by
  refine ⟨?_, ?_, ?_⟩
  · intro b matchId hg ag pen h1 hcond
    unfold updateSemifinalResult
    rw [if_pos h1]
    unfold semiStep
    rcases lt_trichotomy ag hg with hgt | heq | hlt
    · rw [if_pos hgt]
      exact ⟨_, _, rfl, rfl, rfl, rfl, fun _ => ⟨rfl, rfl⟩,
        fun h => absurd h (by omega), fun p h _ => absurd h (by omega),
        (updateBracketProgression_semi _).1⟩
    · rw [if_neg (by omega), if_neg (by omega)]
      rcases hpen : pen with _ | p
      · exact absurd ⟨by omega, hpen⟩ hcond
      · dsimp only
        by_cases hw : p.winner = "home"
        · rw [if_pos hw]
          refine ⟨_, _, rfl, rfl, rfl, rfl, fun h => absurd h (by omega),
            fun h => absurd h (by omega), fun q _ hq => ?_,
            (updateBracketProgression_semi _).1⟩
          obtain rfl := Option.some.inj hq
          exact ⟨fun _ => ⟨rfl, rfl⟩, fun hne => absurd hw hne⟩
        · rw [if_neg hw]
          refine ⟨_, _, rfl, rfl, rfl, rfl, fun h => absurd h (by omega),
            fun h => absurd h (by omega), fun q _ hq => ?_,
            (updateBracketProgression_semi _).1⟩
          obtain rfl := Option.some.inj hq
          exact ⟨fun hq2 => absurd hq2 hw, fun _ => ⟨rfl, rfl⟩⟩
    · rw [if_neg (by omega), if_pos hlt]
      exact ⟨_, _, rfl, rfl, rfl, rfl, fun h => absurd h (by omega),
        fun _ => ⟨rfl, rfl⟩, fun p h _ => absurd h (by omega),
        (updateBracketProgression_semi _).1⟩
  · intro b matchId hg ag pen h1 h2 hcond
    unfold updateSemifinalResult
    rw [if_neg h1, if_pos h2]
    unfold semiStep
    rcases lt_trichotomy ag hg with hgt | heq | hlt
    · rw [if_pos hgt]
      exact ⟨_, _, rfl, rfl, rfl, rfl, fun _ => ⟨rfl, rfl⟩,
        fun h => absurd h (by omega), fun p h _ => absurd h (by omega),
        (updateBracketProgression_semi _).2⟩
    · rw [if_neg (by omega), if_neg (by omega)]
      rcases hpen : pen with _ | p
      · exact absurd ⟨by omega, hpen⟩ hcond
      · dsimp only
        by_cases hw : p.winner = "home"
        · rw [if_pos hw]
          refine ⟨_, _, rfl, rfl, rfl, rfl, fun h => absurd h (by omega),
            fun h => absurd h (by omega), fun q _ hq => ?_,
            (updateBracketProgression_semi _).2⟩
          obtain rfl := Option.some.inj hq
          exact ⟨fun _ => ⟨rfl, rfl⟩, fun hne => absurd hw hne⟩
        · rw [if_neg hw]
          refine ⟨_, _, rfl, rfl, rfl, rfl, fun h => absurd h (by omega),
            fun h => absurd h (by omega), fun q _ hq => ?_,
            (updateBracketProgression_semi _).2⟩
          obtain rfl := Option.some.inj hq
          exact ⟨fun hq2 => absurd hq2 hw, fun _ => ⟨rfl, rfl⟩⟩
    · rw [if_neg (by omega), if_pos hlt]
      exact ⟨_, _, rfl, rfl, rfl, rfl, fun h => absurd h (by omega),
        fun _ => ⟨rfl, rfl⟩, fun p h _ => absurd h (by omega),
        (updateBracketProgression_semi _).2⟩
  · intro b hg ag t hhome hlt
    unfold updateFinalResult
    have hn : ¬ (b.final.homeTeam.isNone = true) := by rw [hhome]; simp
    rw [if_neg hn, if_pos hlt]
    exact ⟨_, _, rfl, by rw [hhome], rfl, rfl⟩

/-- C9 witness: overwriting applied to the resolved fixtures — a
decisive re-resolution of the completed first semifinal, an away-win
re-resolution of the completed second semifinal, and a re-resolution
of the final of the completed tournament. -/
theorem resolution_overwrites_witness :
    (∃ b' s', updateSemifinalResult "semi-1" 2 0 none bracketResolved =
        .ok b' s' ∧
      s'.winner = some bracketResolved.semi1.homeTeam) ∧
    (∃ b' s', updateSemifinalResult "semi-2" 0 3 none bracketCompleted =
        .ok b' s' ∧
      s'.winner = some bracketCompleted.semi2.awayTeam ∧
      b'.semi2 = s') ∧
    (∃ b' f', updateFinalResult 2 0 none bracketCompleted = .ok b' f' ∧
      f'.champion = some seed1 ∧
      b'.metadata.tournamentPhase = "completed" ∧
      b'.final = f') := by
  refine ⟨?_, ?_, ?_⟩
  · obtain ⟨b', s', hok, _, _, _, hwin, _, _, _⟩ :=
      resolution_overwrites.1 bracketResolved "semi-1" 2 0 none rfl
        (by decide)
    exact ⟨b', s', hok, (hwin (by decide)).1⟩
  · obtain ⟨b', s', hok, _, _, _, _, hwin, _, hb⟩ :=
      resolution_overwrites.2.1 bracketCompleted "semi-2" 0 3 none
        (by decide) rfl (by decide)
    exact ⟨b', s', hok, (hwin (by decide)).1, hb⟩
  · exact resolution_overwrites.2.2 bracketCompleted 2 0 seed1 rfl
      (by decide)

/-! ## Claim C1: the tie-break comparator is a strict total order -/

/-- Strings with equal character data are equal. -/
theorem string_data_inj {a b : String} (h : a.data = b.data) : a = b := by
  cases a; cases b
  exact congrArg String.mk h

/-- `ordOfInt` is `lt` exactly on negatives. -/
theorem ordOfInt_lt_iff (n : Int) : ordOfInt n = .lt ↔ n < 0 := by
  unfold ordOfInt
  split_ifs with h1 h2 <;> simp_all <;> omega

/-- `ordOfInt` is `eq` exactly on zero. -/
theorem ordOfInt_eq_iff (n : Int) : ordOfInt n = .eq ↔ n = 0 := by
  unfold ordOfInt
  split_ifs with h1 h2 <;> simp_all <;> omega

/-- Negating the input swaps the `ordOfInt` verdict. -/
theorem ordOfInt_neg (n : Int) : ordOfInt (-n) = (ordOfInt n).swap := by
  unfold ordOfInt
  split_ifs with h1 h2 h3 h4 h5 h6 <;> simp_all [Ordering.swap] <;> omega

/-- `lexCompare` answers `eq` exactly on equal lists. -/
theorem lexCompare_eq_iff :
    ∀ s t : List Char, lexCompare s t = .eq ↔ s = t := by
  intro s
  induction s with
  | nil => intro t; cases t <;> simp [lexCompare]
  | cons c cs ih =>
      intro t
      cases t with
      | nil => simp [lexCompare]
      | cons d ds =>
          unfold lexCompare
          by_cases h1 : c < d
          · rw [if_pos h1]
            constructor
            · intro h; cases h
            · intro h
              obtain ⟨rfl, rfl⟩ := List.cons.inj h
              exact absurd h1 (lt_irrefl c)
          · rw [if_neg h1]
            by_cases h2 : d < c
            · rw [if_pos h2]
              constructor
              · intro h; cases h
              · intro h
                obtain ⟨rfl, rfl⟩ := List.cons.inj h
                exact absurd h2 (lt_irrefl c)
            · rw [if_neg h2]
              have hcd : c = d := le_antisymm (not_lt.mp h2) (not_lt.mp h1)
              rw [ih ds]
              constructor
              · intro h; rw [hcd, h]
              · intro h
                obtain ⟨_, rfl⟩ := List.cons.inj h
                rfl

/-- Swapping the arguments of `lexCompare` swaps the verdict. -/
theorem lexCompare_swap :
    ∀ s t : List Char, lexCompare t s = (lexCompare s t).swap := by
  intro s
  induction s with
  | nil => intro t; cases t <;> simp [lexCompare, Ordering.swap]
  | cons c cs ih =>
      intro t
      cases t with
      | nil => simp [lexCompare, Ordering.swap]
      | cons d ds =>
          unfold lexCompare
          by_cases h1 : c < d
          · simp [h1, lt_asymm h1, Ordering.swap]
          · by_cases h2 : d < c
            · simp [h1, h2, Ordering.swap]
            · simp [h1, h2, ih ds]

/-- `lexCompare` is transitive in `lt`. -/
theorem lexCompare_lt_trans :
    ∀ s t u : List Char, lexCompare s t = .lt → lexCompare t u = .lt →
      lexCompare s u = .lt := by
  intro s
  induction s with
  | nil =>
      intro t u h1 h2
      cases t with
      | nil => exact h2
      | cons d ds =>
          cases u with
          | nil => cases h2
          | cons e es => rfl
  | cons c cs ih =>
      intro t u h1 h2
      cases t with
      | nil => cases h1
      | cons d ds =>
          cases u with
          | nil => cases h2
          | cons e es =>
              unfold lexCompare at h1 h2 ⊢
              by_cases hcd : c < d
              · by_cases hde : d < e
                · rw [if_pos (lt_trans hcd hde)]
                · rw [if_neg hde] at h2
                  by_cases hed : e < d
                  · rw [if_pos hed] at h2; cases h2
                  · have : d = e := le_antisymm (not_lt.mp hed) (not_lt.mp hde)
                    rw [if_pos (this ▸ hcd)]
              · rw [if_neg hcd] at h1
                by_cases hdc : d < c
                · rw [if_pos hdc] at h1; cases h1
                · have hcd' : c = d :=
                    le_antisymm (not_lt.mp hdc) (not_lt.mp hcd)
                  rw [if_neg hdc] at h1
                  by_cases hde : d < e
                  · rw [if_pos (hcd' ▸ hde)]
                  · rw [if_neg hde] at h2
                    by_cases hed : e < d
                    · rw [if_pos hed] at h2; cases h2
                    · have hde' : d = e :=
                        le_antisymm (not_lt.mp hed) (not_lt.mp hde)
                      rw [if_neg hed] at h2
                      have hce : ¬ c < e := by rw [hcd', hde']; exact lt_irrefl e
                      have hec : ¬ e < c := by rw [hcd', hde']; exact lt_irrefl e
                      rw [if_neg hce, if_neg hec]
                      exact ih ds es h1 h2

/-- `localeCompareAr` transitivity in `lt`. -/
theorem localeCompareAr_lt_trans {s t u : String}
    (h1 : localeCompareAr s t = .lt) (h2 : localeCompareAr t u = .lt) :
    localeCompareAr s u = .lt :=
  lexCompare_lt_trans s.data t.data u.data h1 h2

/-- The tie-break comparator answers `eq` exactly when all five sort
keys agree. -/
theorem tieBreakCompare_eq_iff (a b : Row) :
    tieBreakCompare a b = .eq ↔
      (a.points = b.points ∧ a.goalDifference = b.goalDifference ∧
        a.goalsFor = b.goalsFor ∧ a.goalsAgainst = b.goalsAgainst ∧
        a.teamName = b.teamName) := by
  unfold tieBreakCompare localeCompareAr
  by_cases h1 : b.points ≠ a.points
  · rw [if_pos h1, ordOfInt_eq_iff]
    constructor
    · intro h; omega
    · intro ⟨hp, _⟩; omega
  · rw [if_neg h1]
    push_neg at h1
    by_cases h2 : b.goalDifference ≠ a.goalDifference
    · rw [if_pos h2, ordOfInt_eq_iff]
      constructor
      · intro h; omega
      · intro ⟨_, hgd, _⟩; omega
    · rw [if_neg h2]
      push_neg at h2
      by_cases h3 : b.goalsFor ≠ a.goalsFor
      · rw [if_pos h3, ordOfInt_eq_iff]
        constructor
        · intro h; omega
        · intro ⟨_, _, hgf, _⟩; omega
      · rw [if_neg h3]
        push_neg at h3
        by_cases h4 : a.goalsAgainst ≠ b.goalsAgainst
        · rw [if_pos h4, ordOfInt_eq_iff]
          constructor
          · intro h; omega
          · intro ⟨_, _, _, hga, _⟩; omega
        · rw [if_neg h4]
          push_neg at h4
          rw [lexCompare_eq_iff]
          constructor
          · intro h
            exact ⟨h1.symm, h2.symm, h3.symm, h4, string_data_inj h⟩
          · intro ⟨_, _, _, _, hn⟩
            rw [hn]

/-- The tie-break comparator answers `lt` exactly on the explicit
tie-break chain `rowPrecedes`. -/
theorem tieBreakCompare_lt_iff (a b : Row) :
    tieBreakCompare a b = .lt ↔ rowPrecedes a b := by
  unfold tieBreakCompare rowPrecedes
  by_cases h1 : b.points ≠ a.points
  · rw [if_pos h1, ordOfInt_lt_iff]
    constructor
    · intro h; left; omega
    · rintro (h | ⟨hp, _⟩)
      · omega
      · omega
  · rw [if_neg h1]
    push_neg at h1
    by_cases h2 : b.goalDifference ≠ a.goalDifference
    · rw [if_pos h2, ordOfInt_lt_iff]
      constructor
      · intro h; exact Or.inr ⟨h1, Or.inl (by omega)⟩
      · rintro (h | ⟨_, h | ⟨hgd, _⟩⟩)
        · omega
        · omega
        · omega
    · rw [if_neg h2]
      push_neg at h2
      by_cases h3 : b.goalsFor ≠ a.goalsFor
      · rw [if_pos h3, ordOfInt_lt_iff]
        constructor
        · intro h
          exact Or.inr ⟨h1, Or.inr ⟨h2, Or.inl (by omega)⟩⟩
        · rintro (h | ⟨_, h | ⟨_, h | ⟨hgf, _⟩⟩⟩)
          · omega
          · omega
          · omega
          · omega
      · rw [if_neg h3]
        push_neg at h3
        by_cases h4 : a.goalsAgainst ≠ b.goalsAgainst
        · rw [if_pos h4, ordOfInt_lt_iff]
          constructor
          · intro h
            exact Or.inr ⟨h1, Or.inr ⟨h2, Or.inr ⟨h3, Or.inl (by omega)⟩⟩⟩
          · rintro (h | ⟨_, h | ⟨_, h | ⟨_, h | ⟨hga, _⟩⟩⟩⟩)
            · omega
            · omega
            · omega
            · omega
            · omega
        · rw [if_neg h4]
          push_neg at h4
          constructor
          · intro h
            exact Or.inr ⟨h1, Or.inr ⟨h2, Or.inr ⟨h3,
              Or.inr ⟨h4, h⟩⟩⟩⟩
          · rintro (h | ⟨_, h | ⟨_, h | ⟨_, h | ⟨_, h⟩⟩⟩⟩)
            · omega
            · omega
            · omega
            · omega
            · exact h

/-- Swapping the comparator's arguments swaps the verdict. -/
theorem tieBreakCompare_swap (a b : Row) :
    tieBreakCompare b a = (tieBreakCompare a b).swap := by
  unfold tieBreakCompare localeCompareAr
  by_cases h1 : b.points ≠ a.points
  · rw [if_pos h1, if_pos (Ne.symm h1),
      show a.points - b.points = -(b.points - a.points) by ring, ordOfInt_neg]
  · rw [if_neg h1]
    push_neg at h1
    rw [if_neg (by omega : ¬ a.points ≠ b.points)]
    by_cases h2 : b.goalDifference ≠ a.goalDifference
    · rw [if_pos h2, if_pos (Ne.symm h2),
        show a.goalDifference - b.goalDifference =
          -(b.goalDifference - a.goalDifference) by ring, ordOfInt_neg]
    · rw [if_neg h2]
      push_neg at h2
      rw [if_neg (by omega : ¬ a.goalDifference ≠ b.goalDifference)]
      by_cases h3 : b.goalsFor ≠ a.goalsFor
      · rw [if_pos h3, if_pos (Ne.symm h3),
          show a.goalsFor - b.goalsFor = -(b.goalsFor - a.goalsFor) by ring,
          ordOfInt_neg]
      · rw [if_neg h3]
        push_neg at h3
        rw [if_neg (by omega : ¬ a.goalsFor ≠ b.goalsFor)]
        by_cases h4 : a.goalsAgainst ≠ b.goalsAgainst
        · rw [if_pos h4, if_pos (Ne.symm h4),
            show b.goalsAgainst - a.goalsAgainst =
              -(a.goalsAgainst - b.goalsAgainst) by ring, ordOfInt_neg]
        · rw [if_neg h4]
          push_neg at h4
          rw [if_neg (by omega : ¬ b.goalsAgainst ≠ a.goalsAgainst)]
          exact lexCompare_swap a.teamName.data b.teamName.data

/-- The comparator only looks at the five sort keys: replacing the
right (or left) argument by one with identical keys leaves the
verdict unchanged. -/
theorem tieBreakCompare_congr {u v : Row}
    (hp : u.points = v.points) (hgd : u.goalDifference = v.goalDifference)
    (hgf : u.goalsFor = v.goalsFor) (hga : u.goalsAgainst = v.goalsAgainst)
    (hn : u.teamName = v.teamName) (x : Row) :
    tieBreakCompare x u = tieBreakCompare x v ∧
    tieBreakCompare u x = tieBreakCompare v x := by
  unfold tieBreakCompare
  rw [hp, hgd, hgf, hga, hn]
  exact ⟨rfl, rfl⟩

/-- The explicit chain is transitive. -/
theorem rowPrecedes_trans {a b c : Row} (h1 : rowPrecedes a b)
    (h2 : rowPrecedes b c) : rowPrecedes a c := by
  unfold rowPrecedes at *
  obtain h1p | ⟨e1, h1gd | ⟨e2, h1gf | ⟨e3, h1ga | ⟨e4, h1n⟩⟩⟩⟩ := h1 <;>
    obtain h2p | ⟨f1, h2gd | ⟨f2, h2gf | ⟨f3, h2ga | ⟨f4, h2n⟩⟩⟩⟩ := h2 <;>
      first
        | (left; omega)
        | (refine Or.inr ⟨by omega, Or.inl (by omega)⟩)
        | (refine Or.inr ⟨by omega, Or.inr ⟨by omega, Or.inl (by omega)⟩⟩)
        | (refine Or.inr ⟨by omega, Or.inr ⟨by omega,
            Or.inr ⟨by omega, Or.inl (by omega)⟩⟩⟩)
        | (refine Or.inr ⟨by omega, Or.inr ⟨by omega, Or.inr ⟨by omega,
            Or.inr ⟨by omega, ?_⟩⟩⟩⟩
           first
             | exact localeCompareAr_lt_trans h1n h2n
             | (rw [show a.teamName = b.teamName from by assumption]
                exact h2n)
             | (rw [show b.teamName = c.teamName from by assumption] at h1n
                exact h1n))

/-- The comparator's `lt` is transitive. -/
theorem tieBreakCompare_lt_trans {a b c : Row}
    (h1 : tieBreakCompare a b = .lt) (h2 : tieBreakCompare b c = .lt) :
    tieBreakCompare a c = .lt :=
  (tieBreakCompare_lt_iff a c).mpr
    (rowPrecedes_trans ((tieBreakCompare_lt_iff a b).mp h1)
      ((tieBreakCompare_lt_iff b c).mp h2))

/-- The non-`gt` relation used by the sort is transitive. -/
theorem tieBreak_le_trans (a b c : Row)
    (h1 : decide (tieBreakCompare a b ≠ .gt) = true)
    (h2 : decide (tieBreakCompare b c ≠ .gt) = true) :
    decide (tieBreakCompare a c ≠ .gt) = true := by
  rw [decide_eq_true_eq] at h1 h2 ⊢
  have n1 : tieBreakCompare a b = .lt ∨ tieBreakCompare a b = .eq := by
    cases h : tieBreakCompare a b
    · exact Or.inl rfl
    · exact Or.inr rfl
    · exact absurd h h1
  have n2 : tieBreakCompare b c = .lt ∨ tieBreakCompare b c = .eq := by
    cases h : tieBreakCompare b c
    · exact Or.inl rfl
    · exact Or.inr rfl
    · exact absurd h h2
  rcases n1 with hlt1 | heq1 <;> rcases n2 with hlt2 | heq2
  · rw [tieBreakCompare_lt_trans hlt1 hlt2]; intro h; cases h
  · obtain ⟨hp, hgd, hgf, hga, hn⟩ := (tieBreakCompare_eq_iff b c).mp heq2
    rw [← (tieBreakCompare_congr hp hgd hgf hga hn a).1, hlt1]
    intro h; cases h
  · obtain ⟨hp, hgd, hgf, hga, hn⟩ := (tieBreakCompare_eq_iff a b).mp heq1
    rw [(tieBreakCompare_congr hp hgd hgf hga hn c).2, hlt2]
    intro h; cases h
  · obtain ⟨hp, hgd, hgf, hga, hn⟩ := (tieBreakCompare_eq_iff b c).mp heq2
    rw [← (tieBreakCompare_congr hp hgd hgf hga hn a).1, heq1]
    intro h; cases h

/-- The non-`gt` relation used by the sort is total. -/
theorem tieBreak_le_total (a b : Row) :
    (decide (tieBreakCompare a b ≠ .gt) ||
      decide (tieBreakCompare b a ≠ .gt)) = true := by
  rcases h : tieBreakCompare a b with _ | _ | _
  · simp [h]
  · simp [h]
  · have : tieBreakCompare b a = .lt := by
      rw [tieBreakCompare_swap, h]; rfl
    simp [this]

/-- C1: on rows with pairwise distinct team names, `applyTieBreakers`
sorts by the comparator (a permutation arranged consistently with it);
the comparator's strict part is the explicit chain points desc, goal
difference desc, goals for desc, goals against asc, then name
ascending; it is transitive, antisymmetric under swap, and two rows
compare equal only when their names (and all keys) are identical — so
no two distinct rows of the input compare equal. -/
theorem standings_sort_strict_total_order (l : List Row)
    (hnames : l.Pairwise fun a b => a.teamName ≠ b.teamName) :
    (applyTieBreakers l).Perm l ∧
    (applyTieBreakers l).Pairwise
      (fun a b => tieBreakCompare a b ≠ .gt) ∧
    (∀ a b : Row, tieBreakCompare a b = .lt ↔ rowPrecedes a b) ∧
    (∀ a b : Row, tieBreakCompare a b = .eq → a.teamName = b.teamName) ∧
    (∀ a b c : Row, tieBreakCompare a b = .lt → tieBreakCompare b c = .lt →
      tieBreakCompare a c = .lt) ∧
    (∀ a b : Row, tieBreakCompare b a = (tieBreakCompare a b).swap) ∧
    (∀ a, a ∈ l → ∀ b, b ∈ l → a ≠ b → tieBreakCompare a b ≠ .eq) := by
  refine ⟨List.mergeSort_perm l _, ?_, ?_, ?_, ?_, ?_, ?_⟩
  · have hs := List.sorted_mergeSort tieBreak_le_trans tieBreak_le_total l
    exact hs.imp fun h => by
      rw [decide_eq_true_eq] at h; exact h
  · exact tieBreakCompare_lt_iff
  · intro a b h
    exact ((tieBreakCompare_eq_iff a b).mp h).2.2.2.2
  · intro a b c h1 h2
    exact tieBreakCompare_lt_trans h1 h2
  · exact fun a b => tieBreakCompare_swap a b
  · intro a ha b hb hab
    have hsym : Symmetric fun x y : Row => x.teamName ≠ y.teamName :=
      fun x y h e => h e.symm
    have hne := hnames.forall hsym ha hb hab
    intro heq
    exact hne (((tieBreakCompare_eq_iff a b).mp heq).2.2.2.2)

/-- C1 witness: the theorem applied to a concrete two-row list with
distinct names. -/
theorem standings_sort_strict_total_order_witness :
    ([mkRow "B" "Beta", mkRow "A" "Alpha"] : List Row).Pairwise
      (fun a b => a.teamName ≠ b.teamName) ∧
    ((applyTieBreakers [mkRow "B" "Beta", mkRow "A" "Alpha"]).Perm
        [mkRow "B" "Beta", mkRow "A" "Alpha"] ∧
      (applyTieBreakers [mkRow "B" "Beta", mkRow "A" "Alpha"]).Pairwise
        (fun a b => tieBreakCompare a b ≠ .gt) ∧
      (∀ a b : Row, tieBreakCompare a b = .lt ↔ rowPrecedes a b) ∧
      (∀ a b : Row, tieBreakCompare a b = .eq → a.teamName = b.teamName) ∧
      (∀ a b c : Row, tieBreakCompare a b = .lt →
        tieBreakCompare b c = .lt → tieBreakCompare a c = .lt) ∧
      (∀ a b : Row, tieBreakCompare b a = (tieBreakCompare a b).swap) ∧
      (∀ a, a ∈ [mkRow "B" "Beta", mkRow "A" "Alpha"] →
        ∀ b, b ∈ [mkRow "B" "Beta", mkRow "A" "Alpha"] → a ≠ b →
        tieBreakCompare a b ≠ .eq)) := by
  have hp : ([mkRow "B" "Beta", mkRow "A" "Alpha"] : List Row).Pairwise
      (fun a b => a.teamName ≠ b.teamName) := by decide
  exact ⟨hp, standings_sort_strict_total_order _ hp⟩

/-! ## Claim C6: the form window -/

/-- `lastFive` never exceeds five entries. -/
theorem lastFive_length_le (l : List Char) : (lastFive l).length ≤ 5 := by
  unfold lastFive
  rw [List.length_drop]
  omega

/-- A form push followed by the cap maintains the last-five window. -/
theorem capForm_pushForm_form (r : Row) (c : Char) (s : List Char)
    (h : r.form = lastFive s) :
    (capForm (pushForm c r)).form = lastFive (s ++ [c]) := by
  have hform : (pushForm c r).form = lastFive s ++ [c] := by
    unfold pushForm
    dsimp only
    rw [h]
  by_cases hlen : 5 ≤ s.length
  · have hd5 : (lastFive s).length = 5 := by
      unfold lastFive
      rw [List.length_drop]
      omega
    have hlen6 : (pushForm c r).form.length = 6 := by
      rw [hform, List.length_append, hd5]
      rfl
    unfold capForm
    rw [if_pos (by rw [hlen6]; omega)]
    dsimp only
    rw [hform]
    have hl2 : (lastFive s ++ [c]).length = 6 := by
      rw [List.length_append, hd5]
      rfl
    rw [hl2]
    have h65 : (6 - 5 : Nat) = 1 := rfl
    rw [h65, List.drop_append_of_le_length (by rw [hd5]; omega)]
    unfold lastFive
    rw [List.drop_drop, List.length_append]
    have hc1 : [c].length = 1 := rfl
    rw [hc1, List.drop_append_of_le_length (by omega)]
    have he : s.length - 5 + 1 = s.length + 1 - 5 := by omega
    rw [he]
  · have hsmall : lastFive s = s := by
      unfold lastFive
      rw [Nat.sub_eq_zero_of_le (by omega), List.drop_zero]
    unfold capForm
    rw [if_neg]
    · rw [hform, hsmall]
      unfold lastFive
      rw [List.length_append]
      have hc1 : [c].length = 1 := rfl
      rw [hc1, Nat.sub_eq_zero_of_le (by omega), List.drop_zero]
    · rw [hform, hsmall, List.length_append]
      have hc1 : [c].length = 1 := rfl
      rw [hc1]
      omega

/-- The cap is a no-op on an in-window form. -/
theorem capForm_of_le (r : Row) (h : r.form.length ≤ 5) : capForm r = r := by
  unfold capForm
  rw [if_neg (by omega)]

/-- On a list with key-distinct rows, `updateFirstBy` is the
conditional map. -/
theorem updateFirstBy_row_eq_map (k : String) (f : Row → Row) :
    ∀ S : List Row, (S.map Row.teamId).Nodup →
      updateFirstBy (fun r => decide (r.teamId = k)) f S =
        S.map (condK k f) := by
  intro S
  induction S with
  | nil => intro _; rfl
  | cons x xs ih =>
      intro hnd
      rw [List.map_cons, List.nodup_cons] at hnd
      by_cases hx : x.teamId = k
      · simp only [updateFirstBy]
        rw [if_pos (show (decide (x.teamId = k)) = true by simp [hx]),
          List.map_cons, condK, if_pos hx]
        congr 1
        have hall : ∀ y ∈ xs, condK k f y = id y := by
          intro y hy
          rw [condK, if_neg, id]
          intro hyk
          exact hnd.1 (by
            rw [← hx] at hyk
            exact List.mem_map.mpr ⟨y, hy, hyk⟩)
        exact ((List.map_congr_left hall).trans (List.map_id xs)).symm
      · simp only [updateFirstBy]
        rw [if_neg (show ¬ (decide (x.teamId = k)) = true by simp [hx]),
          List.map_cons, condK, if_neg hx, ih hnd.2]

/-- `updateFirstBy` with a key-preserving update preserves the key
sequence. -/
theorem map_key_updateFirstBy (k : String) (f : Row → Row)
    (hf : ∀ x, (f x).teamId = x.teamId) :
    ∀ S : List Row,
      (updateFirstBy (fun r => decide (r.teamId = k)) f S).map Row.teamId =
        S.map Row.teamId := by
  intro S
  induction S with
  | nil => rfl
  | cons x xs ih =>
      by_cases hx : x.teamId = k
      · simp [updateFirstBy, hx, hf]
      · simp [updateFirstBy, hx, ih]

/-- The home counter update keeps the team id. -/
theorem homeCounters_teamId (m : MatchRec) (p : PointsResult) (r : Row) :
    (homeCounters m p r).teamId = r.teamId := rfl

/-- The away counter update keeps the team id. -/
theorem awayCounters_teamId (m : MatchRec) (p : PointsResult) (r : Row) :
    (awayCounters m p r).teamId = r.teamId := rfl

/-- The win push keeps the team id. -/
theorem wonPush_teamId (r : Row) : (wonPush r).teamId = r.teamId := rfl

/-- The loss push keeps the team id. -/
theorem lostPush_teamId (r : Row) : (lostPush r).teamId = r.teamId := rfl

/-- The draw push keeps the team id. -/
theorem drawnPush_teamId (r : Row) : (drawnPush r).teamId = r.teamId := rfl

/-- The form cap keeps the team id. -/
theorem capForm_teamId (r : Row) : (capForm r).teamId = r.teamId := by
  unfold capForm
  split <;> rfl

/-- `processMatch` preserves the key sequence of the rows. -/
theorem processMatch_map_teamId (S : List Row) (m : MatchRec) :
    (processMatch S m).map Row.teamId = S.map Row.teamId := by
  unfold processMatch
  split
  · dsimp only
    rw [map_key_updateFirstBy _ _ capForm_teamId,
      map_key_updateFirstBy _ _ capForm_teamId]
    split
    · rw [map_key_updateFirstBy _ _ lostPush_teamId,
        map_key_updateFirstBy _ _ wonPush_teamId,
        map_key_updateFirstBy _ _ (awayCounters_teamId m _),
        map_key_updateFirstBy _ _ (homeCounters_teamId m _)]
    · split
      · rw [map_key_updateFirstBy _ _ lostPush_teamId,
          map_key_updateFirstBy _ _ wonPush_teamId,
          map_key_updateFirstBy _ _ (awayCounters_teamId m _),
          map_key_updateFirstBy _ _ (homeCounters_teamId m _)]
      · split
        · rw [map_key_updateFirstBy _ _ drawnPush_teamId,
            map_key_updateFirstBy _ _ drawnPush_teamId,
            map_key_updateFirstBy _ _ (awayCounters_teamId m _),
            map_key_updateFirstBy _ _ (homeCounters_teamId m _)]
        · rw [map_key_updateFirstBy _ _ (awayCounters_teamId m _),
            map_key_updateFirstBy _ _ (homeCounters_teamId m _)]
  · rfl

/-- `condK` keeps the team id whenever its update does. -/
theorem condK_teamId (k : String) (f : Row → Row)
    (hf : ∀ x, (f x).teamId = x.teamId) (x : Row) :
    (condK k f x).teamId = x.teamId := by
  unfold condK
  split
  · exact hf x
  · rfl

/-- Mapping a key-preserving `condK` keeps the key sequence. -/
theorem map_map_condK (k : String) (f : Row → Row)
    (hf : ∀ x, (f x).teamId = x.teamId) (S : List Row) :
    (S.map (condK k f)).map Row.teamId = S.map Row.teamId := by
  rw [List.map_map]
  exact List.map_congr_left fun x _ => condK_teamId k f hf x

/-- Key distinctness survives a key-preserving `condK` map. -/
theorem nodup_map_condK (k : String) (f : Row → Row)
    (hf : ∀ x, (f x).teamId = x.teamId) (S : List Row)
    (h : (S.map Row.teamId).Nodup) :
    ((S.map (condK k f)).map Row.teamId).Nodup := by
  rw [map_map_condK k f hf]; exact h

/-- Under distinct keys, one `forEach` iteration is a conditional map
of the per-row body. -/
theorem processMatch_eq_map (S : List Row) (m : MatchRec)
    (hnd : (S.map Row.teamId).Nodup) :
    processMatch S m =
      if (S.any fun r => decide (r.teamId = m.homeTeam)) &&
         (S.any fun r => decide (r.teamId = m.awayTeam)) then
        S.map (rowUpdate m)
      else S := by
  have nd1 : ((S.map (condK m.homeTeam
      (homeCounters m (calculatePoints m)))).map Row.teamId).Nodup := by
    rw [map_map_condK _ _ (homeCounters_teamId m _)]; exact hnd
  have nd2 : (((S.map (condK m.homeTeam
        (homeCounters m (calculatePoints m)))).map
      (condK m.awayTeam (awayCounters m (calculatePoints m)))).map
        Row.teamId).Nodup := by
    rw [map_map_condK _ _ (awayCounters_teamId m _)]; exact nd1
  unfold processMatch
  split
  case isTrue hg =>
    dsimp only
    rw [updateFirstBy_row_eq_map _ _ S hnd,
      updateFirstBy_row_eq_map _ _ _ nd1]
    split
    case isTrue hres =>
      have nd3 := nodup_map_condK m.homeTeam wonPush wonPush_teamId _ nd2
      have nd4 := nodup_map_condK m.awayTeam lostPush lostPush_teamId _ nd3
      have nd5 := nodup_map_condK m.homeTeam capForm capForm_teamId _ nd4
      rw [updateFirstBy_row_eq_map _ _ _ nd2]
      rw [updateFirstBy_row_eq_map _ _ _ nd3]
      rw [updateFirstBy_row_eq_map _ _ _ nd4]
      rw [updateFirstBy_row_eq_map _ _ _ nd5]
      simp only [List.map_map]
      refine List.map_congr_left fun x _ => ?_
      simp only [Function.comp]
      rw [rowUpdate, resultPush, if_pos hres]
    case isFalse hres =>
      split
      case isTrue hres2 =>
        have nd3 := nodup_map_condK m.awayTeam wonPush wonPush_teamId _ nd2
        have nd4 := nodup_map_condK m.homeTeam lostPush lostPush_teamId _ nd3
        have nd5 := nodup_map_condK m.homeTeam capForm capForm_teamId _ nd4
        rw [updateFirstBy_row_eq_map _ _ _ nd2]
        rw [updateFirstBy_row_eq_map _ _ _ nd3]
        rw [updateFirstBy_row_eq_map _ _ _ nd4]
        rw [updateFirstBy_row_eq_map _ _ _ nd5]
        simp only [List.map_map]
        refine List.map_congr_left fun x _ => ?_
        simp only [Function.comp]
        rw [rowUpdate, resultPush, if_neg hres, if_pos hres2]
      case isFalse hres2 =>
        split
        case isTrue hres3 =>
          have nd3 :=
            nodup_map_condK m.homeTeam drawnPush drawnPush_teamId _ nd2
          have nd4 :=
            nodup_map_condK m.awayTeam drawnPush drawnPush_teamId _ nd3
          have nd5 := nodup_map_condK m.homeTeam capForm capForm_teamId _ nd4
          rw [updateFirstBy_row_eq_map _ _ _ nd2]
          rw [updateFirstBy_row_eq_map _ _ _ nd3]
          rw [updateFirstBy_row_eq_map _ _ _ nd4]
          rw [updateFirstBy_row_eq_map _ _ _ nd5]
          simp only [List.map_map]
          refine List.map_congr_left fun x _ => ?_
          simp only [Function.comp]
          rw [rowUpdate, resultPush, if_neg hres, if_neg hres2,
            if_pos hres3]
        case isFalse hres3 =>
          have nd5 := nodup_map_condK m.homeTeam capForm capForm_teamId _ nd2
          rw [updateFirstBy_row_eq_map _ _ _ nd2]
          rw [updateFirstBy_row_eq_map _ _ _ nd5]
          simp only [List.map_map]
          refine List.map_congr_left fun x _ => ?_
          simp only [Function.comp]
          rw [rowUpdate, resultPush, if_neg hres, if_neg hres2,
            if_neg hres3]
  case isFalse hg =>
    rfl

/-- Mapping a key sequence commutes with `any` of a key test. -/
theorem any_map_key (p : String → Bool) :
    ∀ S : List Row, (S.map Row.teamId).any p = S.any fun r => p r.teamId := by
  intro S
  induction S with
  | nil => rfl
  | cons x xs ih => simp [ih]

/-- `condK` fires on a matching key. -/
theorem condK_pos (k : String) (f : Row → Row) (x : Row)
    (h : x.teamId = k) : condK k f x = f x := by
  unfold condK
  rw [if_pos h]

/-- `condK` is the identity on a non-matching key. -/
theorem condK_neg (k : String) (f : Row → Row) (x : Row)
    (h : x.teamId ≠ k) : condK k f x = x := by
  unfold condK
  rw [if_neg h]

/-- The result pushes keep the team id. -/
theorem resultPush_teamId (m : MatchRec) (x : Row) :
    (resultPush m x).teamId = x.teamId := by
  unfold resultPush
  split
  · rw [condK_teamId _ _ lostPush_teamId, condK_teamId _ _ wonPush_teamId]
  · split
    · rw [condK_teamId _ _ lostPush_teamId, condK_teamId _ _ wonPush_teamId]
    · split
      · rw [condK_teamId _ _ drawnPush_teamId,
          condK_teamId _ _ drawnPush_teamId]
      · rfl

/-- The whole per-row `forEach` body keeps the team id. -/
theorem rowUpdate_teamId (m : MatchRec) (x : Row) :
    (rowUpdate m x).teamId = x.teamId := by
  unfold rowUpdate
  rw [condK_teamId _ _ capForm_teamId, condK_teamId _ _ capForm_teamId,
    resultPush_teamId, condK_teamId _ _ (awayCounters_teamId m _),
    condK_teamId _ _ (homeCounters_teamId m _)]

/-- One guarded `forEach` body application maintains the
last-five-window invariant of the form list. -/
theorem rowUpdate_form (m : MatchRec) (x : Row) (s : List Char)
    (hdist : m.homeTeam ≠ m.awayTeam) (hform : x.form = lastFive s) :
    (rowUpdate m x).form = lastFive (s ++ stepCore m x.teamId) := by
  unfold rowUpdate
  by_cases hh : x.teamId = m.homeTeam
  · have ha : x.teamId ≠ m.awayTeam := fun hc => hdist (hh.symm.trans hc)
    rw [condK_pos _ _ _ hh]
    have ha1 : (homeCounters m (calculatePoints m) x).teamId ≠
        m.awayTeam := ha
    rw [condK_neg _ _ _ ha1]
    by_cases hr1 : (calculatePoints m).result = "home_win"
    · have hstep : stepCore m x.teamId = ['W'] := by
        unfold stepCore
        rw [if_pos hr1, if_pos hh]
      rw [hstep]
      unfold resultPush
      rw [if_pos hr1]
      have hp1 : (homeCounters m (calculatePoints m) x).teamId =
          m.homeTeam := hh
      rw [condK_pos _ _ _ hp1]
      have hn1 : (wonPush (homeCounters m (calculatePoints m) x)).teamId ≠
          m.awayTeam := ha
      rw [condK_neg _ _ _ hn1]
      have hp2 : (wonPush (homeCounters m (calculatePoints m) x)).teamId =
          m.homeTeam := hh
      rw [condK_pos _ _ _ hp2]
      have hn2 : (capForm (wonPush
          (homeCounters m (calculatePoints m) x))).teamId ≠ m.awayTeam := by
        rw [capForm_teamId]
        exact ha
      rw [condK_neg _ _ _ hn2]
      exact capForm_pushForm_form _ 'W' s hform
    · by_cases hr2 : (calculatePoints m).result = "away_win"
      · have hstep : stepCore m x.teamId = ['L'] := by
          unfold stepCore
          rw [if_neg hr1, if_pos hr2, if_neg ha, if_pos hh]
        rw [hstep]
        unfold resultPush
        rw [if_neg hr1, if_pos hr2]
        have hn0 : (homeCounters m (calculatePoints m) x).teamId ≠
            m.awayTeam := ha
        rw [condK_neg _ _ _ hn0]
        have hp1 : (homeCounters m (calculatePoints m) x).teamId =
            m.homeTeam := hh
        rw [condK_pos _ _ _ hp1]
        have hp2 : (lostPush (homeCounters m (calculatePoints m) x)).teamId =
            m.homeTeam := hh
        rw [condK_pos _ _ _ hp2]
        have hn2 : (capForm (lostPush
            (homeCounters m (calculatePoints m) x))).teamId ≠
            m.awayTeam := by
          rw [capForm_teamId]
          exact ha
        rw [condK_neg _ _ _ hn2]
        exact capForm_pushForm_form _ 'L' s hform
      · by_cases hr3 : (calculatePoints m).result = "draw"
        · have hstep : stepCore m x.teamId = ['D'] := by
            unfold stepCore
            rw [if_neg hr1, if_neg hr2, if_pos hr3, if_pos (Or.inl hh)]
          rw [hstep]
          unfold resultPush
          rw [if_neg hr1, if_neg hr2, if_pos hr3]
          have hp1 : (homeCounters m (calculatePoints m) x).teamId =
              m.homeTeam := hh
          rw [condK_pos _ _ _ hp1]
          have hn1 : (drawnPush
              (homeCounters m (calculatePoints m) x)).teamId ≠
              m.awayTeam := ha
          rw [condK_neg _ _ _ hn1]
          have hp2 : (drawnPush
              (homeCounters m (calculatePoints m) x)).teamId =
              m.homeTeam := hh
          rw [condK_pos _ _ _ hp2]
          have hn2 : (capForm (drawnPush
              (homeCounters m (calculatePoints m) x))).teamId ≠
              m.awayTeam := by
            rw [capForm_teamId]
            exact ha
          rw [condK_neg _ _ _ hn2]
          exact capForm_pushForm_form _ 'D' s hform
        · have hstep : stepCore m x.teamId = [] := by
            unfold stepCore
            rw [if_neg hr1, if_neg hr2, if_neg hr3]
          rw [hstep, List.append_nil]
          unfold resultPush
          rw [if_neg hr1, if_neg hr2, if_neg hr3]
          have hp1 : (homeCounters m (calculatePoints m) x).teamId =
              m.homeTeam := hh
          rw [condK_pos _ _ _ hp1]
          have hlen : (homeCounters m (calculatePoints m) x).form.length ≤
              5 := by
            show x.form.length ≤ 5
            rw [hform]
            exact lastFive_length_le s
          rw [capForm_of_le _ hlen]
          have hn2 : (homeCounters m (calculatePoints m) x).teamId ≠
              m.awayTeam := ha
          rw [condK_neg _ _ _ hn2]
          exact hform
  · by_cases ha : x.teamId = m.awayTeam
    · rw [condK_neg _ _ _ hh]
      rw [condK_pos _ _ _ ha]
      by_cases hr1 : (calculatePoints m).result = "home_win"
      · have hstep : stepCore m x.teamId = ['L'] := by
          unfold stepCore
          rw [if_pos hr1, if_neg hh, if_pos ha]
        rw [hstep]
        unfold resultPush
        rw [if_pos hr1]
        have hn1 : (awayCounters m (calculatePoints m) x).teamId ≠
            m.homeTeam := hh
        rw [condK_neg _ _ _ hn1]
        have hp1 : (awayCounters m (calculatePoints m) x).teamId =
            m.awayTeam := ha
        rw [condK_pos _ _ _ hp1]
        have hn2 : (lostPush (awayCounters m (calculatePoints m) x)).teamId ≠
            m.homeTeam := hh
        rw [condK_neg _ _ _ hn2]
        have hp2 : (lostPush
            (awayCounters m (calculatePoints m) x)).teamId =
            m.awayTeam := ha
        rw [condK_pos _ _ _ hp2]
        exact capForm_pushForm_form _ 'L' s hform
      · by_cases hr2 : (calculatePoints m).result = "away_win"
        · have hstep : stepCore m x.teamId = ['W'] := by
            unfold stepCore
            rw [if_neg hr1, if_pos hr2, if_pos ha]
          rw [hstep]
          unfold resultPush
          rw [if_neg hr1, if_pos hr2]
          have hp1 : (awayCounters m (calculatePoints m) x).teamId =
              m.awayTeam := ha
          rw [condK_pos _ _ _ hp1]
          have hn1 : (wonPush
              (awayCounters m (calculatePoints m) x)).teamId ≠
              m.homeTeam := hh
          rw [condK_neg _ _ _ hn1]
          have hn2 : (wonPush
              (awayCounters m (calculatePoints m) x)).teamId ≠
              m.homeTeam := hh
          rw [condK_neg _ _ _ hn2]
          have hp2 : (wonPush
              (awayCounters m (calculatePoints m) x)).teamId =
              m.awayTeam := ha
          rw [condK_pos _ _ _ hp2]
          exact capForm_pushForm_form _ 'W' s hform
        · by_cases hr3 : (calculatePoints m).result = "draw"
          · have hstep : stepCore m x.teamId = ['D'] := by
              unfold stepCore
              rw [if_neg hr1, if_neg hr2, if_pos hr3, if_pos (Or.inr ha)]
            rw [hstep]
            unfold resultPush
            rw [if_neg hr1, if_neg hr2, if_pos hr3]
            have hn1 : (awayCounters m (calculatePoints m) x).teamId ≠
                m.homeTeam := hh
            rw [condK_neg _ _ _ hn1]
            have hp1 : (awayCounters m (calculatePoints m) x).teamId =
                m.awayTeam := ha
            rw [condK_pos _ _ _ hp1]
            have hn2 : (drawnPush
                (awayCounters m (calculatePoints m) x)).teamId ≠
                m.homeTeam := hh
            rw [condK_neg _ _ _ hn2]
            have hp2 : (drawnPush
                (awayCounters m (calculatePoints m) x)).teamId =
                m.awayTeam := ha
            rw [condK_pos _ _ _ hp2]
            exact capForm_pushForm_form _ 'D' s hform
          · have hstep : stepCore m x.teamId = [] := by
              unfold stepCore
              rw [if_neg hr1, if_neg hr2, if_neg hr3]
            rw [hstep, List.append_nil]
            unfold resultPush
            rw [if_neg hr1, if_neg hr2, if_neg hr3]
            have hn1 : (awayCounters m (calculatePoints m) x).teamId ≠
                m.homeTeam := hh
            rw [condK_neg _ _ _ hn1]
            have hp1 : (awayCounters m (calculatePoints m) x).teamId =
                m.awayTeam := ha
            rw [condK_pos _ _ _ hp1]
            have hlen : (awayCounters m (calculatePoints m) x).form.length ≤
                5 := by
              show x.form.length ≤ 5
              rw [hform]
              exact lastFive_length_le s
            rw [capForm_of_le _ hlen]
            exact hform
    · rw [condK_neg _ _ _ hh, condK_neg _ _ _ ha]
      have hstep : stepCore m x.teamId = [] := by
        unfold stepCore
        split
        · rfl
        · split
          · rfl
          · split
            · rw [if_neg (fun hor : x.teamId = m.homeTeam ∨
                x.teamId = m.awayTeam => hor.elim hh ha)]
            · rfl
      have hres : resultPush m x = x := by
        unfold resultPush
        split
        · rw [condK_neg _ _ _ hh, condK_neg _ _ _ ha]
        · split
          · rw [condK_neg _ _ _ ha, condK_neg _ _ _ hh]
          · split
            · rw [condK_neg _ _ _ hh, condK_neg _ _ _ ha]
            · rfl
      rw [hres, condK_neg _ _ _ hh, condK_neg _ _ _ ha, hstep,
        List.append_nil]
      exact hform

/-- One `forEach` iteration maintains the per-team form invariant,
appending the guarded step characters. -/
theorem processMatch_form (S : List Row) (m : MatchRec)
    (g : String → List Char) (hnd : (S.map Row.teamId).Nodup)
    (hdist : m.homeTeam ≠ m.awayTeam)
    (hinv : ∀ x ∈ S, x.form = lastFive (g x.teamId)) :
    ∀ x ∈ processMatch S m,
      x.form = lastFive (g x.teamId ++
        stepChars (S.map Row.teamId) x.teamId m) := by
  intro x hx
  rw [processMatch_eq_map S m hnd] at hx
  unfold stepChars
  simp only [any_map_key]
  by_cases hg : ((S.any fun r => decide (r.teamId = m.homeTeam)) &&
      (S.any fun r => decide (r.teamId = m.awayTeam))) = true
  · rw [if_pos hg] at hx
    rw [if_pos hg]
    obtain ⟨y, hy, rfl⟩ := List.mem_map.mp hx
    rw [rowUpdate_teamId]
    exact rowUpdate_form m y (g y.teamId) hdist (hinv y hy)
  · rw [if_neg hg] at hx
    rw [if_neg hg, List.append_nil]
    exact hinv x hx

/-- Factoring the accumulator out of the character fold. -/
theorem foldl_append_factor (f : MatchRec → List Char) :
    ∀ (ms : List MatchRec) (acc : List Char),
      ms.foldl (fun a m => a ++ f m) acc =
        acc ++ ms.foldl (fun a m => a ++ f m) [] := by
  intro ms
  induction ms with
  | nil => intro acc; simp
  | cons m ms ih =>
    intro acc
    rw [List.foldl_cons, List.foldl_cons, ih (acc ++ f m),
      ih (([] : List Char) ++ f m)]
    simp

/-- Unfolding one match of the result-character fold. -/
theorem resultCharsFor_cons (ids : List String) (t : String)
    (m : MatchRec) (ms : List MatchRec) :
    resultCharsFor ids t (m :: ms) =
      stepChars ids t m ++ resultCharsFor ids t ms := by
  unfold resultCharsFor
  rw [List.foldl_cons, foldl_append_factor]
  simp

/-- Folding the played matches in list order leaves every row's form
equal to the last-five window of its accumulated result characters. -/
theorem foldl_processMatch_form (ids : List String) :
    ∀ (ms : List MatchRec) (S : List Row) (g : String → List Char),
      S.map Row.teamId = ids →
      (∀ m ∈ ms, m.homeTeam ≠ m.awayTeam) →
      ids.Nodup →
      (∀ x ∈ S, x.form = lastFive (g x.teamId)) →
      ∀ x ∈ ms.foldl processMatch S,
        x.form = lastFive (g x.teamId ++ resultCharsFor ids x.teamId ms) := by
  intro ms
  induction ms with
  | nil =>
    intro S g hids hdist hnd hinv x hx
    rw [List.foldl_nil] at hx
    have h0 : resultCharsFor ids x.teamId [] = [] := rfl
    rw [h0, List.append_nil]
    exact hinv x hx
  | cons m ms ih =>
    intro S g hids hdist hnd hinv x hx
    rw [List.foldl_cons] at hx
    have hnd' : (S.map Row.teamId).Nodup := by rw [hids]; exact hnd
    have hdist1 : m.homeTeam ≠ m.awayTeam := hdist m (List.mem_cons_self m ms)
    have hids' : (processMatch S m).map Row.teamId = ids := by
      rw [processMatch_map_teamId]
      exact hids
    have hinv1 : ∀ y ∈ processMatch S m,
        y.form = lastFive ((fun t => g t ++ stepChars ids t m) y.teamId) := by
      intro y hy
      have hy2 := processMatch_form S m g hnd' hdist1 hinv y hy
      rw [hids] at hy2
      exact hy2
    have hmain := ih (processMatch S m) (fun t => g t ++ stepChars ids t m)
      hids' (fun m2 hm2 => hdist m2 (List.mem_cons_of_mem _ hm2)) hnd
      hinv1 x hx
    rw [resultCharsFor_cons, ← List.append_assoc]
    exact hmain

/-- The standings fold keeps the input order of the match list: on the
unsorted list (day 10 before day 5) the form of team A reads W-then-L,
while the day-sorted list yields L-then-W; chronological order is not
restored by `calculateStandings`. -/
theorem form_chronological_counterexample :
    (calculateStandings [teamA, teamB] [lateMatch, earlyMatch]).map Row.form
      = [['W', 'L'], ['L', 'W']] ∧
    (calculateStandings [teamA, teamB] [earlyMatch, lateMatch]).map Row.form
      = [['L', 'W'], ['W', 'L']] ∧
    lateMatch.day = 10 ∧ earlyMatch.day = 5 := by
  refine ⟨?_, ?_, rfl, rfl⟩ <;>
    simp [calculateStandings, determineQualification, applyTieBreakers,
      applyGoalDifference, processMatch, updateFirstBy, calculatePoints,
      homeCounters, awayCounters, wonPush, lostPush, drawnPush, pushForm,
      capForm, initRow, isPlayedWithGoals, teamA, teamB, lateMatch,
      earlyMatch, tieBreakCompare, ordOfInt, localeCompareAr, lexCompare,
      List.mergeSort, playoffQualifiers, List.enum, List.enumFrom]

/-- C6: form invariant. For every roster with distinct team ids and
every match list whose matches pair distinct teams, each row of
`calculateStandings` carries as its form the last-at-most-five result
characters of that team - accumulated in the input order of the match
list. The five-entry cap always holds, but `calculateStandings` never
sorts by day, so the window is chronological only when the input list
is already day-sorted (as the store convention maintains); the claimed
as-if-sorted processing of unsorted input does not happen. -/
theorem form_follows_input_order (teams : List Team) (ms : List MatchRec)
    (hnd : (teams.map Team.id).Nodup)
    (hdist : ∀ m ∈ ms, m.homeTeam ≠ m.awayTeam) :
    ∀ r ∈ calculateStandings teams ms,
      r.form = lastFive (resultCharsFor (teams.map Team.id) r.teamId
        (ms.filter isPlayedWithGoals)) ∧
      r.form.length ≤ 5 := by
  intro r hr
  unfold calculateStandings at hr
  dsimp only at hr
  unfold determineQualification at hr
  obtain ⟨p, hp, rfl⟩ := List.mem_map.mp hr
  have hp2 := List.snd_mem_of_mem_enum hp
  have hp3 : p.2 ∈ applyGoalDifference
      ((ms.filter isPlayedWithGoals).foldl processMatch
        (teams.map initRow)) := by
    unfold applyTieBreakers at hp2
    exact (List.mergeSort_perm _ _).mem_iff.mp hp2
  obtain ⟨q, hq, hfq⟩ := List.mem_map.mp hp3
  have hids : (teams.map initRow).map Row.teamId = teams.map Team.id := by
    rw [List.map_map]
    exact List.map_congr_left fun t _ => rfl
  have hdistf : ∀ m ∈ ms.filter isPlayedWithGoals,
      m.homeTeam ≠ m.awayTeam :=
    fun m hm => hdist m (List.mem_of_mem_filter hm)
  have hinv : ∀ x ∈ teams.map initRow,
      x.form = lastFive ((fun _ => ([] : List Char)) x.teamId) := by
    intro x hx
    obtain ⟨t, _, rfl⟩ := List.mem_map.mp hx
    rfl
  have hform := foldl_processMatch_form (teams.map Team.id)
    (ms.filter isPlayedWithGoals) (teams.map initRow)
    (fun _ => ([] : List Char)) hids hdistf hnd hinv q hq
  rw [List.nil_append] at hform
  show p.2.form = lastFive (resultCharsFor (teams.map Team.id)
      p.2.teamId (ms.filter isPlayedWithGoals)) ∧ p.2.form.length ≤ 5
  rw [← hfq]
  show q.form = lastFive (resultCharsFor (teams.map Team.id)
      q.teamId (ms.filter isPlayedWithGoals)) ∧ q.form.length ≤ 5
  refine ⟨hform, ?_⟩
  rw [hform]
  exact lastFive_length_le _

/-- C6 witness: the theorem applied to the two-team roster and the
unsorted two-match list. -/
theorem form_follows_input_order_witness :
    (([teamA, teamB].map Team.id).Nodup ∧
      ∀ m ∈ [lateMatch, earlyMatch], m.homeTeam ≠ m.awayTeam) ∧
    ∀ r ∈ calculateStandings [teamA, teamB] [lateMatch, earlyMatch],
      r.form = lastFive (resultCharsFor ([teamA, teamB].map Team.id)
        r.teamId ([lateMatch, earlyMatch].filter isPlayedWithGoals)) ∧
      r.form.length ≤ 5 :=
  ⟨⟨by decide, by decide⟩,
    form_follows_input_order [teamA, teamB] [lateMatch, earlyMatch]
      (by decide) (by decide)⟩

end Salfoon
